import Mathlib

/-!
Shallow embedding of the Beer Game federated knowledge-graph simulation:
the temporal SPARQL rule pipeline of `SWRL_Rules/temporal_beer_game_rules_v3.py`
(class `TemporalBeerGameRuleExecutor` and the rules returned by
`get_temporal_rules`), the player system of `players/base_player.py`,
`players/algorithmic_player.py`, `players/ai_player.py`,
`players/gpt4_player.py`, and the orchestrator
`game/game_orchestrator_v3_integrated.py`, together with theorems checking
the natural-language specification against this embedding.

Numeric conventions: SPARQL `xsd:integer` values are modelled as `Int`;
SPARQL `xsd:decimal` values (exact decimal arithmetic) and the Python
floats holding rates are modelled as `ℚ`.
-/

namespace BeerGame

/-- The four supply-chain actors (repositories BG_Retailer, BG_Wholesaler,
BG_Distributor, BG_Factory). -/
inductive Role where
  | retailer
  | wholesaler
  | distributor
  | factory
deriving DecidableEq, Repr, Fintype

/-- Python `int(x)` applied to a fractional value truncates toward zero. -/
def pyInt (q : ℚ) : Int := if 0 ≤ q then ⌊q⌋ else ⌈q⌉

/-- SPARQL rule ORDER-UP-TO POLICY (temporal_beer_game_rules_v3.py, rule
"ORDER-UP-TO POLICY"): `?totalDelay = xsd:decimal(?leadTime + ?reviewPeriod)`;
`?targetStock = ?rate * ?totalDelay`;
`?orderQty = ?targetStock - xsd:decimal(?currentStock)`;
`?finalOrder = xsd:integer(CEIL(IF(?orderQty > 0, ?orderQty, 0)))`.
Note the rule reads the actor's `shippingDelay` and `orderDelay`, and it
does not read the backlog. -/
def orderUpToRuleOrder (rate : ℚ) (leadTime reviewPeriod currentStock : Int) : Int :=
  let totalDelay : ℚ := ((leadTime + reviewPeriod : Int) : ℚ)
  let targetStock : ℚ := rate * totalDelay
  let orderQty : ℚ := targetStock - (currentStock : ℚ)
  ⌈if orderQty > 0 then orderQty else 0⌉

/-- Python `AlgorithmicPlayer.decide` (players/algorithmic_player.py):
`target_inventory = demand_rate * self.target_coverage`;
`suggested_order = target_inventory - inventory + backlog`;
`final_order = max(0, int(suggested_order))`. -/
def algorithmicDecide (targetCoverage demandRate : ℚ) (inventory backlog : Int) : Int :=
  let target_inventory : ℚ := demandRate * targetCoverage
  let suggested_order : ℚ := target_inventory - (inventory : ℚ) + (backlog : ℚ)
  max 0 (pyInt suggested_order)

/-- Default `target_coverage` of `AlgorithmicPlayer.__init__` (3.0 weeks). -/
def defaultTargetCoverage : ℚ := 3

/-- Formula asserted by the specification for the stored order quantity:
`order = ceil(max(demandRate * targetCoverage - currentStock + backlog, 0))`.
This follows the spec's words, for comparison with the code's formulas. -/
def specOrderUpTo (targetCoverage demandRate : ℚ) (currentStock backlog : Int) : Int :=
  ⌈max (demandRate * targetCoverage - (currentStock : ℚ) + (backlog : ℚ)) 0⌉

/-- A Shipment entity: `bg:shippedFrom`, `bg:shippedTo`, `bg:forWeek`,
`bg:arrivalWeek`, `bg:shippedQuantity`. -/
structure Shipment where
  shippedFrom : Role
  shippedTo : Role
  forWeek : Int
  arrivalWeek : Int
  quantity : Int
deriving DecidableEq, Repr

/-- Federated query of `query_arriving_shipments_federated`: the SUM of
`bg:shippedQuantity` over all shipments (in any repository, seen through the
BG_Supply_Chain federation) with `bg:shippedTo` the given actor and
`bg:arrivalWeek` the given week. -/
def arrivingShipmentsFederated (store : List Shipment) (actor : Role) (week : Int) : Int :=
  ((store.filter (fun sh => decide (sh.shippedTo = actor ∧ sh.arrivalWeek = week))).map
    Shipment.quantity).sum

/-- Demand used by the UPDATE INVENTORY rule:
`COALESCE(?customerDemand, ?orderDemand, 0)` where `?orderDemand` is the SUM
of `bg:orderQuantity` over week-N orders with `bg:receivedBy` the actor in
the repository the rule runs on (the SUM of an empty group is unbound, and
COALESCE then yields 0, which agrees with `List.sum []`). -/
def demandThisWeek (customerDemand : Option Int) (ordersReceivedLocal : List Int) : Int :=
  match customerDemand with
  | some d => d
  | none => ordersReceivedLocal.sum

/-- Arithmetic core of the UPDATE INVENTORY rule:
`?afterArrival = ?oldInv + ?incomingShipments`;
`?totalNeed = ?demandThisWeek + ?oldBacklog`;
`?newInv = IF(?afterArrival >= ?totalNeed, ?afterArrival - ?totalNeed, 0)`;
`?newBacklog = IF(?afterArrival >= ?totalNeed, 0, ?totalNeed - ?afterArrival)`. -/
def updateInventoryCore (oldInv oldBacklog incomingShipments demand : Int) : Int × Int :=
  let afterArrival := oldInv + incomingShipments
  let totalNeed := demand + oldBacklog
  (if afterArrival ≥ totalNeed then afterArrival - totalNeed else 0,
   if afterArrival ≥ totalNeed then 0 else totalNeed - afterArrival)

/-- Static actor attributes read by the rules: `bg:shippingDelay`,
`bg:orderDelay`, the per-unit costs stored on the Inventory entities, and
whether a previous order exists identifying an upstream actor (the
CREATE ORDERS rule infers the topology from `?prevOrder`). -/
structure ActorStatic where
  leadTime : Int
  orderDelay : Int
  holdingCost : ℚ
  backlogCost : ℚ
  hasUpstream : Bool
deriving DecidableEq, Repr

/-- Per-actor inputs of one week's rule run that are fixed before the run:
the week's CustomerDemand in the actor's repository (Retailer only), the
federated average of the previous week's orders received by the actor
(`query_observed_demand_federated`, `none` when week-1 or no orders), the
federated sum of shipments arriving this week
(`query_arriving_shipments_federated`), the week-N orders with
`bg:receivedBy` this actor that sit in the actor's own repository, the
previous week's inventory snapshot values, the total cost contributed by the
previous weeks' processed snapshots, and whether any such processed snapshot
exists. -/
structure ActorEnv where
  customerDemand : Option Int
  prevOrdersAvg : Option ℚ
  arrivals : Int
  ordersReceivedLocal : List Int
  prevStock : Int
  prevBacklog : Int
  pastCost : ℚ
  hasPastProcessed : Bool
deriving DecidableEq, Repr

/-- One actor's week-N record state: the ActorMetrics fields
(`bg:demandRate`, `bg:inventoryCoverage` + `bg:coverageCalculated`,
`bg:suggestedOrderQuantity` + `bg:orderPolicyCalculated`,
`bg:hasStockoutRisk`, `bg:hasBullwhipRisk`), the Inventory snapshot fields
(`bg:currentInventory`, `bg:backlog`, `bg:inventoryProcessed`), the week-N
Order placed by the actor (with its `bg:orderAmplification`), the week-N
Shipment from the actor to its downstream neighbour, and the actor's
`bg:totalCost`. -/
structure ActorState where
  demandRate : ℚ
  stock : Int
  backlog : Int
  inventoryProcessed : Bool
  coverage : ℚ
  coverageCalculated : Bool
  suggestedOrder : Int
  orderPolicyCalculated : Bool
  stockoutRisk : Bool
  bullwhipRisk : Bool
  orderAmplification : Option ℚ
  placedOrder : Option Int
  shipment : Option Int
  totalCost : ℚ
deriving DecidableEq, Repr

/-- Observed demand of `query_observed_demand_federated`: the local
CustomerDemand for the week when one exists (Retailer), otherwise the
federated AVG of the previous week's orders received by the actor. -/
def observedDemand (e : ActorEnv) : Option ℚ :=
  match e.customerDemand with
  | some d => some (d : ℚ)
  | none => e.prevOrdersAvg

/-- Smoothed rate of the DEMAND RATE SMOOTHING rule:
`(xsd:decimal(?currentDemand) * 0.3) + (?oldRate * 0.7)`. -/
def smoothedRate (oldRate currentDemand : ℚ) : ℚ :=
  currentDemand * (3 / 10) + oldRate * (7 / 10)

/-- SPARQL `ABS` on a decimal. -/
def ratAbs (q : ℚ) : ℚ := if q < 0 then -q else q

/-- Filter of the DEMAND RATE SMOOTHING rule:
`FILTER(?changeRatio > 0.05 || ?oldRate = 0)` with
`?changeRatio = ABS(?smoothedRate - ?oldRate) / ?oldRate`. When
`?oldRate = 0` the division errors and the SPARQL `||` still yields true
from its right operand, so the write happens. -/
def smoothingFires (oldRate currentDemand : ℚ) : Prop :=
  (oldRate ≠ 0 ∧ ratAbs (smoothedRate oldRate currentDemand - oldRate) / oldRate > 1 / 20) ∨
    oldRate = 0

instance (a b : ℚ) : Decidable (smoothingFires a b) := by
  unfold smoothingFires
  infer_instance

/-- DEMAND RATE SMOOTHING rule, as run by
`execute_demand_rate_smoothing_with_federation`: the temp property
`bg:tempObservedDemand` holds the federated observed demand when one exists;
`?currentDemand = COALESCE(?observedDemand, ?oldRate)`; the DELETE+INSERT of
`bg:demandRate` happens only when the filter passes. -/
def smoothingStep (e : ActorEnv) (s : ActorState) : ActorState :=
  let currentDemand := (observedDemand e).getD s.demandRate
  if smoothingFires s.demandRate currentDemand then
    { s with demandRate := smoothedRate s.demandRate currentDemand }
  else s

/-- UPDATE INVENTORY rule, as run by
`execute_inventory_update_with_federation`: skipped when
`bg:inventoryProcessed` is already true (FILTER NOT EXISTS); otherwise the
new stock and backlog are computed from the PREVIOUS week's snapshot values,
the federated arriving-shipment total (temp property, COALESCE 0) and the
week's demand, and `bg:inventoryProcessed` is set. -/
def inventoryStep (e : ActorEnv) (s : ActorState) : ActorState :=
  if s.inventoryProcessed then s
  else
    let res := updateInventoryCore e.prevStock e.prevBacklog e.arrivals
      (demandThisWeek e.customerDemand e.ordersReceivedLocal)
    { s with stock := res.1, backlog := res.2, inventoryProcessed := true }

/-- INVENTORY COVERAGE CALCULATION rule: skipped when
`bg:coverageCalculated` is set; requires `FILTER(?rate > 0)`;
`?coverage = xsd:decimal(?stock) / ?rate`. -/
def coverageStep (s : ActorState) : ActorState :=
  if ¬s.coverageCalculated ∧ s.demandRate > 0 then
    { s with coverage := (s.stock : ℚ) / s.demandRate, coverageCalculated := true }
  else s

/-- STOCKOUT RISK DETECTION rule:
`?totalLeadTime = xsd:decimal(?leadTime + ?orderTime)`;
`FILTER(?coverage < ?totalLeadTime)`; when the filter passes the old flag is
deleted and `bg:hasStockoutRisk true` inserted. -/
def stockoutStep (cf : ActorStatic) (s : ActorState) : ActorState :=
  if s.coverage < ((cf.leadTime + cf.orderDelay : Int) : ℚ) then
    { s with stockoutRisk := true }
  else s

/-- ORDER-UP-TO POLICY rule: skipped when `bg:orderPolicyCalculated` is set;
otherwise stores `orderUpToRuleOrder` and sets the flag. -/
def policyStep (cf : ActorStatic) (s : ActorState) : ActorState :=
  if s.orderPolicyCalculated then s
  else
    { s with
      suggestedOrder := orderUpToRuleOrder s.demandRate cf.leadTime cf.orderDelay s.stock,
      orderPolicyCalculated := true }

/-- CREATE ORDERS FROM SUGGESTED rule: creates the week's Order with the
suggested quantity when `FILTER(?suggestedQty > 0)` passes, no order placed
by the actor exists for the week (FILTER NOT EXISTS), and a previous order
identifies an upstream actor. -/
def createOrdersStep (cf : ActorStatic) (s : ActorState) : ActorState :=
  if s.suggestedOrder > 0 ∧ s.placedOrder = none ∧ cf.hasUpstream then
    { s with placedOrder := some s.suggestedOrder }
  else s

/-- Baseline of the BULLWHIP DETECTION rule:
`COALESCE(?realDemand, ?demandRate)`, where `?realDemand` is the week's
CustomerDemand in the repository the rule runs on. -/
def bullwhipBaseline (e : ActorEnv) (s : ActorState) : ℚ :=
  match e.customerDemand with
  | some d => (d : ℚ)
  | none => s.demandRate

/-- BULLWHIP DETECTION rule: for the week's order placed by the actor, with
`FILTER(?baseline > 0)` and `FILTER(?ratio > 1.3)` where
`?ratio = xsd:decimal(?qty) / xsd:decimal(?baseline)`; when both pass,
`bg:hasBullwhipRisk true` is inserted on the metrics and the ratio is stored
as `bg:orderAmplification` on the Order (replacing old values). -/
def bullwhipStep (e : ActorEnv) (s : ActorState) : ActorState :=
  match s.placedOrder with
  | none => s
  | some q =>
    if 0 < bullwhipBaseline e s ∧ (q : ℚ) / bullwhipBaseline e s > 13 / 10 then
      { s with
        bullwhipRisk := true,
        orderAmplification := some ((q : ℚ) / bullwhipBaseline e s) }
    else s

/-- TOTAL COST CALCULATION rule: replaces `bg:totalCost` with the sum of
`stock * holdingCost + backlog * backlogCost` over all PROCESSED inventory
snapshots; the aggregate subquery produces a row (and hence a write) only
when at least one processed snapshot exists. Snapshots of previous weeks are
frozen and enter through `pastCost` / `hasPastProcessed`. -/
def costStep (cf : ActorStatic) (e : ActorEnv) (s : ActorState) : ActorState :=
  if s.inventoryProcessed ∨ e.hasPastProcessed then
    { s with
      totalCost := e.pastCost +
        (if s.inventoryProcessed then
          (s.stock : ℚ) * cf.holdingCost + (s.backlog : ℚ) * cf.backlogCost
        else 0) }
  else s

/-- Writing one shipment found by the federated CREATE SHIPMENTS step
(`create_shipments_from_federated_orders`): an INSERT DATA of the shipment
triples with a week-determined URI; by RDF set semantics, re-inserting the
same triples leaves the graph unchanged. -/
def shipmentWrite (incoming : Option Int) (s : ActorState) : ActorState :=
  match incoming with
  | none => s
  | some q => { s with shipment := some q }

/-- Receiver map of `Player.create_order` (players/base_player.py): the
upstream actor each role orders from; the Factory orders from no one. -/
def receiverMap : Role → Option Role
  | .retailer => some .wholesaler
  | .wholesaler => some .distributor
  | .distributor => some .factory
  | .factory => none

/-- An Order entity as written by a player: `bg:placedBy`, `bg:receivedBy`,
`bg:orderQuantity`. -/
structure OrderRec where
  placedBy : Role
  receivedBy : Role
  quantity : Int
deriving DecidableEq, Repr

/-- `Player.create_order`: returns without writing when the role has no
receiver or the quantity equals 0; otherwise writes the order. -/
def createOrder (role : Role) (week quantity : Int) : Option OrderRec :=
  match receiverMap role with
  | none => none
  | some receiver => if quantity = 0 then none else some ⟨role, receiver, quantity⟩

/-- The order written by `Player.play_turn` for a raw decision: the decision
is validated to `max(0, int(decision))` and handed to `create_order`. -/
def playTurnOrder (role : Role) (week decision : Int) : Option OrderRec :=
  createOrder role week (max 0 decision)

/-- Python `str.strip()` on a character list: leading and trailing
whitespace removed. -/
def pyStrip (l : List Char) : List Char :=
  ((l.dropWhile Char.isWhitespace).reverse.dropWhile Char.isWhitespace).reverse

/-- Python `str.split` on the newline character. -/
def splitNewlines : List Char → List Char → List (List Char)
  | [], acc => [acc.reverse]
  | c :: cs, acc =>
    if c = '\n' then acc.reverse :: splitNewlines cs []
    else splitNewlines cs (c :: acc)

/-- Case-insensitive prefix test `line.upper().startswith(marker)` for an
already upper-case marker. -/
def upperStartsWith (marker l : List Char) : Bool :=
  decide ((l.map Char.toUpper).take marker.length = marker)

/-- First maximal run of decimal digits in a character list (the digit-run
regex search of `AIPlayer._parse_response`). -/
def firstDigitRun : List Char → Option (List Char)
  | [] => none
  | c :: cs => if c.isDigit then some (c :: cs.takeWhile Char.isDigit) else firstDigitRun cs

/-- Numeric value of a run of decimal digits. -/
def digitsVal (l : List Char) : Nat :=
  l.foldl (fun a c => 10 * a + (c.toNat - 48)) 0

/-- First number in a piece of text: `int` of the first digit run, `none`
when the text holds no digit. -/
def firstNumber (l : List Char) : Option Int :=
  (firstDigitRun l).map (fun ds => (digitsVal ds : Int))

/-- Line loop of `AIPlayer._parse_response`: each line is stripped; a line
whose upper-cased form starts with the ORDER marker updates the pending
order with the first number after the colon (keeping the previous value
when none is found); a line starting with the REASON marker appends the
text after the colon to the reason lines; any later line continues the
reason once it has started; other lines are ignored. -/
def parseLines : List (List Char) → Option Int → List (List Char) →
    Option Int × List (List Char)
  | [], pending, reasons => (pending, reasons)
  | l :: ls, pending, reasons =>
    let t := pyStrip l
    if upperStartsWith "ORDER:".data t then
      match firstNumber (t.drop 6) with
      | some n => parseLines ls (some n) reasons
      | none => parseLines ls pending reasons
    else if upperStartsWith "REASON:".data t then
      parseLines ls pending (reasons ++ [pyStrip (t.drop 7)])
    else if reasons ≠ [] then
      parseLines ls pending (reasons ++ [t])
    else
      parseLines ls pending reasons

/-- `AIPlayer._parse_response`: the response is stripped and split on
newlines, the line loop runs, the order defaults to 0 when no ORDER line
parsed (with only a console warning), and the reasoning defaults to a fixed
placeholder when no REASON lines were collected. -/
def parseResponse (response : String) : Int × String :=
  let p := parseLines (splitNewlines (pyStrip response.data) []) none []
  (p.1.getD 0,
   if p.2 = [] then "No reasoning provided"
   else String.mk (List.intercalate [' '] p.2))

/-- `GPT4Player._call_llm`: the API call either yields the model's content
or, on any exception (API error, timeout), the fixed fallback response
naming the failure. -/
def gpt4CallLLM (api : Except String String) : String :=
  match api with
  | .ok content => content
  | .error _ => "ORDER: 0\nREASON: API error occurred, defaulting to no order for safety."

/-- `AIPlayer.decide`: calls the LLM, parses the response, stores the
reasoning for the audit trail and returns `max(0, int(order))`. -/
def aiDecide (api : Except String String) : Int × String :=
  let parsed := parseResponse (gpt4CallLLM api)
  (max 0 parsed.1, parsed.2)

/-- Role order of `_execute_player_turns`
(game_orchestrator_v3_integrated.py). -/
def roleOrder : List Role :=
  [.retailer, .wholesaler, .distributor, .factory]

/-- `_execute_player_turns`: each player's `play_turn` runs inside a try
block; an exception is caught, the role's decision is recorded as 0, and
the loop continues with the remaining roles. -/
def executePlayerTurns (turn : Role → Except String Int) : List (Role × Int) :=
  roleOrder.map (fun r => (r, match turn r with | .ok d => d | .error _ => 0))

/-- Outcome of one POST of a rule to a repository inside `execute_rule`. -/
inductive StoreResponse where
  | ok204
  | badRequest
  | serverError
  | otherStatus
  | timeout
  | connectionError
deriving DecidableEq, Repr

/-- Result classification of `execute_rule`: HTTP 204 yields True; HTTP
400, HTTP 500, any other status, a requests Timeout and any other exception
all yield False. -/
def executeRuleResult (resp : StoreResponse) : Bool :=
  match resp with
  | .ok204 => true
  | _ => false

/-- `execute_rule` run against an oracle giving the response each attempt
would receive: the body performs exactly one `session.post`, so only
attempt 0 is consulted and exactly one store call is made (the second
component counts the calls). -/
def executeRule (oracle : Nat → StoreResponse) : Bool × Nat :=
  (executeRuleResult (oracle 0), 1)

/-- Modelled from the spec: section 7(a) asks that a transient store error
"retry the single failed rule-application up to a small bounded count"
before marking it failed; no retry loop exists in
temporal_beer_game_rules_v3.py, so this retrying executor follows the
spec's words for comparison: it attempts the call up to retries+1 times and
succeeds when any attempt returns HTTP 204. -/
def specRetryExecute (oracle : Nat → StoreResponse) (retries : Nat) : Bool :=
  (List.range (retries + 1)).any (fun i => executeRuleResult (oracle i))

/-- Executed/failed counting of `execute_week_rules`, fed with the boolean
results of the store calls each step makes. Steps 3-6 (the
`pre_shipment_rules` loop: INVENTORY COVERAGE, STOCKOUT RISK, ORDER-UP-TO,
CREATE ORDERS) and steps 8-9 (the `post_shipment_rules` loop: BULLWHIP,
TOTAL COST) route each repository's `execute_rule` result into executed or
failed and never abort. Steps 1 and 2 (the federated DEMAND RATE SMOOTHING
and UPDATE INVENTORY) DISCARD their per-repository `execute_rule` results
— the loops inside the `..._with_federation` methods ignore the returned
boolean — and `execute_week_rules` instead adds the repository count to
executed unconditionally ("Count as success for all repos"); step 7 (the
federated CREATE SHIPMENTS) likewise adds the repository count to executed
unconditionally, its helpers swallowing any HTTP error internally. -/
def executeWeekRuleCounts (nRepos : Nat)
    (smoothingResults inventoryResults preShipmentResults postShipmentResults : List Bool) :
    Nat × Nat :=
  let c0 : Nat × Nat := (0, 0)
  let c1 : Nat × Nat := (c0.1 + nRepos, c0.2)
  let c2 : Nat × Nat := (c1.1 + nRepos, c1.2)
  let c6 := preShipmentResults.foldl
    (fun acc res => if res then (acc.1 + 1, acc.2) else (acc.1, acc.2 + 1)) c2
  let c7 : Nat × Nat := (c6.1 + nRepos, c6.2)
  postShipmentResults.foldl
    (fun acc res => if res then (acc.1 + 1, acc.2) else (acc.1, acc.2 + 1)) c7

/-- Joint state of the four repositories for the week being processed. -/
structure GState where
  retailer : ActorState
  wholesaler : ActorState
  distributor : ActorState
  factory : ActorState
deriving DecidableEq, Repr

/-- Project one actor's state. -/
def GState.get (g : GState) : Role → ActorState
  | .retailer => g.retailer
  | .wholesaler => g.wholesaler
  | .distributor => g.distributor
  | .factory => g.factory

/-- Apply a per-actor state transformer to every repository (the executor
runs each rule on every repository in turn). -/
def GState.map (f : Role → ActorState → ActorState) (g : GState) : GState :=
  ⟨f .retailer g.retailer, f .wholesaler g.wholesaler,
   f .distributor g.distributor, f .factory g.factory⟩

/-- Downstream neighbour: the actor whose orders this actor receives
(`bg:receivedBy` points from the downstream actor's orders to this one). -/
def downstream : Role → Option Role
  | .retailer => none
  | .wholesaler => some .retailer
  | .distributor => some .wholesaler
  | .factory => some .distributor

/-- Federated query of `query_incoming_orders_federated`: the week's orders
with `bg:receivedBy` this actor, i.e. the order placed by its downstream
neighbour. -/
def incomingOrder (g : GState) (r : Role) : Option Int :=
  match downstream r with
  | none => none
  | some d => (g.get d).placedOrder

/-- CREATE SHIPMENTS step of `execute_week_rules` (V3 federated version):
for each actor, query incoming orders through the federation and insert the
corresponding shipment in the actor's repository. -/
def shipmentsStep (g : GState) : GState :=
  GState.map (fun r s => shipmentWrite (incomingOrder g r) s) g

/-- Static configuration and week inputs for all four actors. -/
structure WeekConfig where
  cfg : Role → ActorStatic
  env : Role → ActorEnv

/-- `execute_week_rules`: the nine rules in dependency order, each applied
to every repository before the next rule runs:
1 DEMAND RATE SMOOTHING (federated observed demand), 2 UPDATE INVENTORY
(federated arriving shipments), 3 INVENTORY COVERAGE CALCULATION,
4 STOCKOUT RISK DETECTION, 5 ORDER-UP-TO POLICY, 6 CREATE ORDERS FROM
SUGGESTED, 7 CREATE SHIPMENTS (federated incoming orders), 8 BULLWHIP
DETECTION, 9 TOTAL COST CALCULATION. -/
def weekStep (w : WeekConfig) (g : GState) : GState :=
  let g1 := GState.map (fun r s => smoothingStep (w.env r) s) g
  let g2 := GState.map (fun r s => inventoryStep (w.env r) s) g1
  let g3 := GState.map (fun _ s => coverageStep s) g2
  let g4 := GState.map (fun r s => stockoutStep (w.cfg r) s) g3
  let g5 := GState.map (fun r s => policyStep (w.cfg r) s) g4
  let g6 := GState.map (fun r s => createOrdersStep (w.cfg r) s) g5
  let g7 := shipmentsStep g6
  let g8 := GState.map (fun r s => bullwhipStep (w.env r) s) g7
  GState.map (fun r s => costStep (w.cfg r) (w.env r) s) g8

/-- Rules 1-6 composed for one actor (they read and write only that actor's
partition, with the federated inputs frozen in `ActorEnv`). -/
def localPre (cf : ActorStatic) (e : ActorEnv) (s : ActorState) : ActorState :=
  createOrdersStep cf (policyStep cf (stockoutStep cf (coverageStep
    (inventoryStep e (smoothingStep e s)))))

set_option maxHeartbeats 1000000 in
lemma weekStep_eq (w : WeekConfig) (g : GState) :
    weekStep w g =
      (let g6 := GState.map (fun r s => localPre (w.cfg r) (w.env r) s) g
       GState.map (fun r s => costStep (w.cfg r) (w.env r)
         (bullwhipStep (w.env r) (shipmentWrite (incomingOrder g6 r) s))) g6) := by
  simp only [weekStep, localPre, shipmentsStep, GState.map, GState.get, incomingOrder]

lemma GState.map_get (f : Role → ActorState → ActorState) (g : GState) (r : Role) :
    (GState.map f g).get r = f r (g.get r) := by
  cases r <;> rfl

lemma GState.ext_get {a b : GState} (h : ∀ r, a.get r = b.get r) : a = b := by
  cases a
  cases b
  have h1 := h .retailer
  have h2 := h .wholesaler
  have h3 := h .distributor
  have h4 := h .factory
  simp only [GState.get] at h1 h2 h3 h4
  simp_all

section StepProjections

variable (cf : ActorStatic) (e : ActorEnv) (s : ActorState)

@[simp] lemma smoothingStep_stock : (smoothingStep e s).stock = s.stock := by
  simp only [smoothingStep]; split_ifs <;> rfl

@[simp] lemma smoothingStep_backlog : (smoothingStep e s).backlog = s.backlog := by
  simp only [smoothingStep]; split_ifs <;> rfl

@[simp] lemma smoothingStep_inventoryProcessed :
    (smoothingStep e s).inventoryProcessed = s.inventoryProcessed := by
  simp only [smoothingStep]; split_ifs <;> rfl

@[simp] lemma smoothingStep_coverage : (smoothingStep e s).coverage = s.coverage := by
  simp only [smoothingStep]; split_ifs <;> rfl

@[simp] lemma smoothingStep_coverageCalculated :
    (smoothingStep e s).coverageCalculated = s.coverageCalculated := by
  simp only [smoothingStep]; split_ifs <;> rfl

@[simp] lemma smoothingStep_suggestedOrder :
    (smoothingStep e s).suggestedOrder = s.suggestedOrder := by
  simp only [smoothingStep]; split_ifs <;> rfl

@[simp] lemma smoothingStep_orderPolicyCalculated :
    (smoothingStep e s).orderPolicyCalculated = s.orderPolicyCalculated := by
  simp only [smoothingStep]; split_ifs <;> rfl

@[simp] lemma smoothingStep_stockoutRisk :
    (smoothingStep e s).stockoutRisk = s.stockoutRisk := by
  simp only [smoothingStep]; split_ifs <;> rfl

@[simp] lemma smoothingStep_bullwhipRisk :
    (smoothingStep e s).bullwhipRisk = s.bullwhipRisk := by
  simp only [smoothingStep]; split_ifs <;> rfl

@[simp] lemma smoothingStep_orderAmplification :
    (smoothingStep e s).orderAmplification = s.orderAmplification := by
  simp only [smoothingStep]; split_ifs <;> rfl

@[simp] lemma smoothingStep_placedOrder :
    (smoothingStep e s).placedOrder = s.placedOrder := by
  simp only [smoothingStep]; split_ifs <;> rfl

@[simp] lemma smoothingStep_shipment : (smoothingStep e s).shipment = s.shipment := by
  simp only [smoothingStep]; split_ifs <;> rfl

@[simp] lemma smoothingStep_totalCost : (smoothingStep e s).totalCost = s.totalCost := by
  simp only [smoothingStep]; split_ifs <;> rfl

@[simp] lemma inventoryStep_inventoryProcessed :
    (inventoryStep e s).inventoryProcessed = true := by
  simp only [inventoryStep]; split_ifs with h
  · exact h
  · rfl

@[simp] lemma inventoryStep_demandRate : (inventoryStep e s).demandRate = s.demandRate := by
  simp only [inventoryStep]; split_ifs <;> rfl

@[simp] lemma inventoryStep_coverage : (inventoryStep e s).coverage = s.coverage := by
  simp only [inventoryStep]; split_ifs <;> rfl

@[simp] lemma inventoryStep_coverageCalculated :
    (inventoryStep e s).coverageCalculated = s.coverageCalculated := by
  simp only [inventoryStep]; split_ifs <;> rfl

@[simp] lemma inventoryStep_suggestedOrder :
    (inventoryStep e s).suggestedOrder = s.suggestedOrder := by
  simp only [inventoryStep]; split_ifs <;> rfl

@[simp] lemma inventoryStep_orderPolicyCalculated :
    (inventoryStep e s).orderPolicyCalculated = s.orderPolicyCalculated := by
  simp only [inventoryStep]; split_ifs <;> rfl

@[simp] lemma inventoryStep_stockoutRisk :
    (inventoryStep e s).stockoutRisk = s.stockoutRisk := by
  simp only [inventoryStep]; split_ifs <;> rfl

@[simp] lemma inventoryStep_bullwhipRisk :
    (inventoryStep e s).bullwhipRisk = s.bullwhipRisk := by
  simp only [inventoryStep]; split_ifs <;> rfl

@[simp] lemma inventoryStep_orderAmplification :
    (inventoryStep e s).orderAmplification = s.orderAmplification := by
  simp only [inventoryStep]; split_ifs <;> rfl

@[simp] lemma inventoryStep_placedOrder :
    (inventoryStep e s).placedOrder = s.placedOrder := by
  simp only [inventoryStep]; split_ifs <;> rfl

@[simp] lemma inventoryStep_shipment : (inventoryStep e s).shipment = s.shipment := by
  simp only [inventoryStep]; split_ifs <;> rfl

@[simp] lemma inventoryStep_totalCost : (inventoryStep e s).totalCost = s.totalCost := by
  simp only [inventoryStep]; split_ifs <;> rfl

@[simp] lemma coverageStep_demandRate : (coverageStep s).demandRate = s.demandRate := by
  simp only [coverageStep]; split_ifs <;> rfl

@[simp] lemma coverageStep_stock : (coverageStep s).stock = s.stock := by
  simp only [coverageStep]; split_ifs <;> rfl

@[simp] lemma coverageStep_backlog : (coverageStep s).backlog = s.backlog := by
  simp only [coverageStep]; split_ifs <;> rfl

@[simp] lemma coverageStep_inventoryProcessed :
    (coverageStep s).inventoryProcessed = s.inventoryProcessed := by
  simp only [coverageStep]; split_ifs <;> rfl

@[simp] lemma coverageStep_suggestedOrder :
    (coverageStep s).suggestedOrder = s.suggestedOrder := by
  simp only [coverageStep]; split_ifs <;> rfl

@[simp] lemma coverageStep_orderPolicyCalculated :
    (coverageStep s).orderPolicyCalculated = s.orderPolicyCalculated := by
  simp only [coverageStep]; split_ifs <;> rfl

@[simp] lemma coverageStep_stockoutRisk :
    (coverageStep s).stockoutRisk = s.stockoutRisk := by
  simp only [coverageStep]; split_ifs <;> rfl

@[simp] lemma coverageStep_bullwhipRisk :
    (coverageStep s).bullwhipRisk = s.bullwhipRisk := by
  simp only [coverageStep]; split_ifs <;> rfl

@[simp] lemma coverageStep_orderAmplification :
    (coverageStep s).orderAmplification = s.orderAmplification := by
  simp only [coverageStep]; split_ifs <;> rfl

@[simp] lemma coverageStep_placedOrder :
    (coverageStep s).placedOrder = s.placedOrder := by
  simp only [coverageStep]; split_ifs <;> rfl

@[simp] lemma coverageStep_shipment : (coverageStep s).shipment = s.shipment := by
  simp only [coverageStep]; split_ifs <;> rfl

@[simp] lemma coverageStep_totalCost : (coverageStep s).totalCost = s.totalCost := by
  simp only [coverageStep]; split_ifs <;> rfl

lemma coverageStep_not_calc (h : (coverageStep s).coverageCalculated = false) :
    ¬s.demandRate > 0 ∨ s.coverageCalculated = true := by
  by_cases hc : ¬s.coverageCalculated ∧ s.demandRate > 0
  · simp only [coverageStep, if_pos hc] at h
    exact absurd h (by simp)
  · rcases not_and_or.mp hc with h1 | h1
    · right; simpa using h1
    · left; exact h1

@[simp] lemma stockoutStep_demandRate : (stockoutStep cf s).demandRate = s.demandRate := by
  simp only [stockoutStep]; split_ifs <;> rfl

@[simp] lemma stockoutStep_stock : (stockoutStep cf s).stock = s.stock := by
  simp only [stockoutStep]; split_ifs <;> rfl

@[simp] lemma stockoutStep_backlog : (stockoutStep cf s).backlog = s.backlog := by
  simp only [stockoutStep]; split_ifs <;> rfl

@[simp] lemma stockoutStep_inventoryProcessed :
    (stockoutStep cf s).inventoryProcessed = s.inventoryProcessed := by
  simp only [stockoutStep]; split_ifs <;> rfl

@[simp] lemma stockoutStep_coverage : (stockoutStep cf s).coverage = s.coverage := by
  simp only [stockoutStep]; split_ifs <;> rfl

@[simp] lemma stockoutStep_coverageCalculated :
    (stockoutStep cf s).coverageCalculated = s.coverageCalculated := by
  simp only [stockoutStep]; split_ifs <;> rfl

@[simp] lemma stockoutStep_suggestedOrder :
    (stockoutStep cf s).suggestedOrder = s.suggestedOrder := by
  simp only [stockoutStep]; split_ifs <;> rfl

@[simp] lemma stockoutStep_orderPolicyCalculated :
    (stockoutStep cf s).orderPolicyCalculated = s.orderPolicyCalculated := by
  simp only [stockoutStep]; split_ifs <;> rfl

@[simp] lemma stockoutStep_bullwhipRisk :
    (stockoutStep cf s).bullwhipRisk = s.bullwhipRisk := by
  simp only [stockoutStep]; split_ifs <;> rfl

@[simp] lemma stockoutStep_orderAmplification :
    (stockoutStep cf s).orderAmplification = s.orderAmplification := by
  simp only [stockoutStep]; split_ifs <;> rfl

@[simp] lemma stockoutStep_placedOrder :
    (stockoutStep cf s).placedOrder = s.placedOrder := by
  simp only [stockoutStep]; split_ifs <;> rfl

@[simp] lemma stockoutStep_shipment : (stockoutStep cf s).shipment = s.shipment := by
  simp only [stockoutStep]; split_ifs <;> rfl

@[simp] lemma stockoutStep_totalCost : (stockoutStep cf s).totalCost = s.totalCost := by
  simp only [stockoutStep]; split_ifs <;> rfl

lemma stockoutStep_stockoutRisk :
    (stockoutStep cf s).stockoutRisk =
      if s.coverage < ((cf.leadTime + cf.orderDelay : Int) : ℚ) then true
      else s.stockoutRisk := by
  simp only [stockoutStep]; split_ifs <;> rfl

@[simp] lemma policyStep_demandRate : (policyStep cf s).demandRate = s.demandRate := by
  simp only [policyStep]; split_ifs <;> rfl

@[simp] lemma policyStep_stock : (policyStep cf s).stock = s.stock := by
  simp only [policyStep]; split_ifs <;> rfl

@[simp] lemma policyStep_backlog : (policyStep cf s).backlog = s.backlog := by
  simp only [policyStep]; split_ifs <;> rfl

@[simp] lemma policyStep_inventoryProcessed :
    (policyStep cf s).inventoryProcessed = s.inventoryProcessed := by
  simp only [policyStep]; split_ifs <;> rfl

@[simp] lemma policyStep_coverage : (policyStep cf s).coverage = s.coverage := by
  simp only [policyStep]; split_ifs <;> rfl

@[simp] lemma policyStep_coverageCalculated :
    (policyStep cf s).coverageCalculated = s.coverageCalculated := by
  simp only [policyStep]; split_ifs <;> rfl

@[simp] lemma policyStep_orderPolicyCalculated :
    (policyStep cf s).orderPolicyCalculated = true := by
  simp only [policyStep]; split_ifs with h
  · exact h
  · rfl

@[simp] lemma policyStep_stockoutRisk :
    (policyStep cf s).stockoutRisk = s.stockoutRisk := by
  simp only [policyStep]; split_ifs <;> rfl

@[simp] lemma policyStep_bullwhipRisk :
    (policyStep cf s).bullwhipRisk = s.bullwhipRisk := by
  simp only [policyStep]; split_ifs <;> rfl

@[simp] lemma policyStep_orderAmplification :
    (policyStep cf s).orderAmplification = s.orderAmplification := by
  simp only [policyStep]; split_ifs <;> rfl

@[simp] lemma policyStep_placedOrder :
    (policyStep cf s).placedOrder = s.placedOrder := by
  simp only [policyStep]; split_ifs <;> rfl

@[simp] lemma policyStep_shipment : (policyStep cf s).shipment = s.shipment := by
  simp only [policyStep]; split_ifs <;> rfl

@[simp] lemma policyStep_totalCost : (policyStep cf s).totalCost = s.totalCost := by
  simp only [policyStep]; split_ifs <;> rfl

@[simp] lemma createOrdersStep_demandRate :
    (createOrdersStep cf s).demandRate = s.demandRate := by
  simp only [createOrdersStep]; split_ifs <;> rfl

@[simp] lemma createOrdersStep_stock : (createOrdersStep cf s).stock = s.stock := by
  simp only [createOrdersStep]; split_ifs <;> rfl

@[simp] lemma createOrdersStep_backlog : (createOrdersStep cf s).backlog = s.backlog := by
  simp only [createOrdersStep]; split_ifs <;> rfl

@[simp] lemma createOrdersStep_inventoryProcessed :
    (createOrdersStep cf s).inventoryProcessed = s.inventoryProcessed := by
  simp only [createOrdersStep]; split_ifs <;> rfl

@[simp] lemma createOrdersStep_coverage :
    (createOrdersStep cf s).coverage = s.coverage := by
  simp only [createOrdersStep]; split_ifs <;> rfl

@[simp] lemma createOrdersStep_coverageCalculated :
    (createOrdersStep cf s).coverageCalculated = s.coverageCalculated := by
  simp only [createOrdersStep]; split_ifs <;> rfl

@[simp] lemma createOrdersStep_suggestedOrder :
    (createOrdersStep cf s).suggestedOrder = s.suggestedOrder := by
  simp only [createOrdersStep]; split_ifs <;> rfl

@[simp] lemma createOrdersStep_orderPolicyCalculated :
    (createOrdersStep cf s).orderPolicyCalculated = s.orderPolicyCalculated := by
  simp only [createOrdersStep]; split_ifs <;> rfl

@[simp] lemma createOrdersStep_stockoutRisk :
    (createOrdersStep cf s).stockoutRisk = s.stockoutRisk := by
  simp only [createOrdersStep]; split_ifs <;> rfl

@[simp] lemma createOrdersStep_bullwhipRisk :
    (createOrdersStep cf s).bullwhipRisk = s.bullwhipRisk := by
  simp only [createOrdersStep]; split_ifs <;> rfl

@[simp] lemma createOrdersStep_orderAmplification :
    (createOrdersStep cf s).orderAmplification = s.orderAmplification := by
  simp only [createOrdersStep]; split_ifs <;> rfl

@[simp] lemma createOrdersStep_shipment :
    (createOrdersStep cf s).shipment = s.shipment := by
  simp only [createOrdersStep]; split_ifs <;> rfl

@[simp] lemma createOrdersStep_totalCost :
    (createOrdersStep cf s).totalCost = s.totalCost := by
  simp only [createOrdersStep]; split_ifs <;> rfl

lemma createOrdersStep_placedOrder_isSome
    (h : s.suggestedOrder > 0 ∧ cf.hasUpstream) :
    (createOrdersStep cf s).placedOrder ≠ none := by
  simp only [createOrdersStep]
  split_ifs with hc
  · simp
  · intro hn
    exact hc ⟨h.1, hn, h.2⟩

end StepProjections

section PostStepProjections

variable (cf : ActorStatic) (e : ActorEnv) (inc : Option Int) (s : ActorState)

@[simp] lemma shipmentWrite_demandRate : (shipmentWrite inc s).demandRate = s.demandRate := by
  cases inc <;> rfl

@[simp] lemma shipmentWrite_stock : (shipmentWrite inc s).stock = s.stock := by
  cases inc <;> rfl

@[simp] lemma shipmentWrite_backlog : (shipmentWrite inc s).backlog = s.backlog := by
  cases inc <;> rfl

@[simp] lemma shipmentWrite_inventoryProcessed :
    (shipmentWrite inc s).inventoryProcessed = s.inventoryProcessed := by
  cases inc <;> rfl

@[simp] lemma shipmentWrite_coverage : (shipmentWrite inc s).coverage = s.coverage := by
  cases inc <;> rfl

@[simp] lemma shipmentWrite_coverageCalculated :
    (shipmentWrite inc s).coverageCalculated = s.coverageCalculated := by
  cases inc <;> rfl

@[simp] lemma shipmentWrite_suggestedOrder :
    (shipmentWrite inc s).suggestedOrder = s.suggestedOrder := by
  cases inc <;> rfl

@[simp] lemma shipmentWrite_orderPolicyCalculated :
    (shipmentWrite inc s).orderPolicyCalculated = s.orderPolicyCalculated := by
  cases inc <;> rfl

@[simp] lemma shipmentWrite_stockoutRisk :
    (shipmentWrite inc s).stockoutRisk = s.stockoutRisk := by
  cases inc <;> rfl

@[simp] lemma shipmentWrite_bullwhipRisk :
    (shipmentWrite inc s).bullwhipRisk = s.bullwhipRisk := by
  cases inc <;> rfl

@[simp] lemma shipmentWrite_orderAmplification :
    (shipmentWrite inc s).orderAmplification = s.orderAmplification := by
  cases inc <;> rfl

@[simp] lemma shipmentWrite_placedOrder :
    (shipmentWrite inc s).placedOrder = s.placedOrder := by
  cases inc <;> rfl

@[simp] lemma shipmentWrite_totalCost : (shipmentWrite inc s).totalCost = s.totalCost := by
  cases inc <;> rfl

lemma shipmentWrite_shipment_of_some (q : Int) (h : inc = some q) :
    (shipmentWrite inc s).shipment = some q := by
  subst h; rfl

@[simp] lemma bullwhipStep_demandRate : (bullwhipStep e s).demandRate = s.demandRate := by
  unfold bullwhipStep
  cases s.placedOrder
  · rfl
  · dsimp only; split_ifs <;> rfl

@[simp] lemma bullwhipStep_stock : (bullwhipStep e s).stock = s.stock := by
  unfold bullwhipStep
  cases s.placedOrder
  · rfl
  · dsimp only; split_ifs <;> rfl

@[simp] lemma bullwhipStep_backlog : (bullwhipStep e s).backlog = s.backlog := by
  unfold bullwhipStep
  cases s.placedOrder
  · rfl
  · dsimp only; split_ifs <;> rfl

@[simp] lemma bullwhipStep_inventoryProcessed :
    (bullwhipStep e s).inventoryProcessed = s.inventoryProcessed := by
  unfold bullwhipStep
  cases s.placedOrder
  · rfl
  · dsimp only; split_ifs <;> rfl

@[simp] lemma bullwhipStep_coverage : (bullwhipStep e s).coverage = s.coverage := by
  unfold bullwhipStep
  cases s.placedOrder
  · rfl
  · dsimp only; split_ifs <;> rfl

@[simp] lemma bullwhipStep_coverageCalculated :
    (bullwhipStep e s).coverageCalculated = s.coverageCalculated := by
  unfold bullwhipStep
  cases s.placedOrder
  · rfl
  · dsimp only; split_ifs <;> rfl

@[simp] lemma bullwhipStep_suggestedOrder :
    (bullwhipStep e s).suggestedOrder = s.suggestedOrder := by
  unfold bullwhipStep
  cases s.placedOrder
  · rfl
  · dsimp only; split_ifs <;> rfl

@[simp] lemma bullwhipStep_orderPolicyCalculated :
    (bullwhipStep e s).orderPolicyCalculated = s.orderPolicyCalculated := by
  unfold bullwhipStep
  cases s.placedOrder
  · rfl
  · dsimp only; split_ifs <;> rfl

@[simp] lemma bullwhipStep_stockoutRisk :
    (bullwhipStep e s).stockoutRisk = s.stockoutRisk := by
  unfold bullwhipStep
  cases s.placedOrder
  · rfl
  · dsimp only; split_ifs <;> rfl

@[simp] lemma bullwhipStep_placedOrder :
    (bullwhipStep e s).placedOrder = s.placedOrder := by
  unfold bullwhipStep
  cases h : s.placedOrder
  · simpa using h
  · dsimp only; split_ifs <;> simp [h]

@[simp] lemma bullwhipStep_shipment : (bullwhipStep e s).shipment = s.shipment := by
  unfold bullwhipStep
  cases s.placedOrder
  · rfl
  · dsimp only; split_ifs <;> rfl

@[simp] lemma bullwhipStep_totalCost : (bullwhipStep e s).totalCost = s.totalCost := by
  unfold bullwhipStep
  cases s.placedOrder
  · rfl
  · dsimp only; split_ifs <;> rfl

lemma bullwhipStep_bullwhipRisk_of_true (h : s.bullwhipRisk = true) :
    (bullwhipStep e s).bullwhipRisk = true := by
  unfold bullwhipStep
  cases s.placedOrder
  · exact h
  · dsimp only; split_ifs <;> simp [h]

lemma bullwhipStep_set (q : Int) (ho : s.placedOrder = some q)
    (hc : 0 < bullwhipBaseline e s ∧ (q : ℚ) / bullwhipBaseline e s > 13 / 10) :
    (bullwhipStep e s).bullwhipRisk = true ∧
      (bullwhipStep e s).orderAmplification = some ((q : ℚ) / bullwhipBaseline e s) := by
  unfold bullwhipStep
  rw [ho]
  dsimp only
  rw [if_pos hc]
  exact ⟨rfl, rfl⟩

lemma bullwhipStep_skip (q : Int) (ho : s.placedOrder = some q)
    (hc : ¬(0 < bullwhipBaseline e s ∧ (q : ℚ) / bullwhipBaseline e s > 13 / 10)) :
    bullwhipStep e s = s := by
  unfold bullwhipStep
  rw [ho]
  dsimp only
  rw [if_neg hc]

@[simp] lemma costStep_demandRate : (costStep cf e s).demandRate = s.demandRate := by
  simp only [costStep]; split_ifs <;> rfl

@[simp] lemma costStep_stock : (costStep cf e s).stock = s.stock := by
  simp only [costStep]; split_ifs <;> rfl

@[simp] lemma costStep_backlog : (costStep cf e s).backlog = s.backlog := by
  simp only [costStep]; split_ifs <;> rfl

@[simp] lemma costStep_inventoryProcessed :
    (costStep cf e s).inventoryProcessed = s.inventoryProcessed := by
  simp only [costStep]; split_ifs <;> rfl

@[simp] lemma costStep_coverage : (costStep cf e s).coverage = s.coverage := by
  simp only [costStep]; split_ifs <;> rfl

@[simp] lemma costStep_coverageCalculated :
    (costStep cf e s).coverageCalculated = s.coverageCalculated := by
  simp only [costStep]; split_ifs <;> rfl

@[simp] lemma costStep_suggestedOrder :
    (costStep cf e s).suggestedOrder = s.suggestedOrder := by
  simp only [costStep]; split_ifs <;> rfl

@[simp] lemma costStep_orderPolicyCalculated :
    (costStep cf e s).orderPolicyCalculated = s.orderPolicyCalculated := by
  simp only [costStep]; split_ifs <;> rfl

@[simp] lemma costStep_stockoutRisk :
    (costStep cf e s).stockoutRisk = s.stockoutRisk := by
  simp only [costStep]; split_ifs <;> rfl

@[simp] lemma costStep_bullwhipRisk :
    (costStep cf e s).bullwhipRisk = s.bullwhipRisk := by
  simp only [costStep]; split_ifs <;> rfl

@[simp] lemma costStep_orderAmplification :
    (costStep cf e s).orderAmplification = s.orderAmplification := by
  simp only [costStep]; split_ifs <;> rfl

@[simp] lemma costStep_placedOrder :
    (costStep cf e s).placedOrder = s.placedOrder := by
  simp only [costStep]; split_ifs <;> rfl

@[simp] lemma costStep_shipment : (costStep cf e s).shipment = s.shipment := by
  simp only [costStep]; split_ifs <;> rfl

lemma costStep_totalCost_of_processed (h : s.inventoryProcessed = true) :
    (costStep cf e s).totalCost =
      e.pastCost + ((s.stock : ℚ) * cf.holdingCost + (s.backlog : ℚ) * cf.backlogCost) := by
  simp [costStep, h]

end PostStepProjections

section FixLemmas

variable (cf : ActorStatic) (e : ActorEnv)

lemma inventoryStep_skip {s : ActorState} (h : s.inventoryProcessed = true) :
    inventoryStep e s = s := by
  simp only [inventoryStep, h, if_pos]

lemma coverageStep_skip {s : ActorState}
    (h : s.coverageCalculated = true ∨ ¬s.demandRate > 0) : coverageStep s = s := by
  unfold coverageStep
  rw [if_neg]
  rcases h with h | h
  · simp [h]
  · simp [h]

lemma stockoutStep_fix {s : ActorState}
    (h : s.coverage < ((cf.leadTime + cf.orderDelay : Int) : ℚ) → s.stockoutRisk = true) :
    stockoutStep cf s = s := by
  unfold stockoutStep
  split_ifs with hc
  · have hh := h hc
    cases s
    simp_all
  · rfl

lemma policyStep_skip {s : ActorState} (h : s.orderPolicyCalculated = true) :
    policyStep cf s = s := by
  simp only [policyStep, h, if_pos]

lemma createOrdersStep_skip {s : ActorState}
    (h : s.suggestedOrder > 0 ∧ cf.hasUpstream → s.placedOrder ≠ none) :
    createOrdersStep cf s = s := by
  unfold createOrdersStep
  rw [if_neg]
  intro ⟨h1, h2, h3⟩
  exact h ⟨h1, h3⟩ h2

lemma shipmentWrite_fix {inc : Option Int} {s : ActorState}
    (h : ∀ q, inc = some q → s.shipment = some q) : shipmentWrite inc s = s := by
  cases hi : inc with
  | none => rfl
  | some q =>
    have hs := h q hi
    unfold shipmentWrite
    cases s
    dsimp only at hs ⊢
    subst hs
    rfl

lemma bullwhipStep_fix {s : ActorState}
    (h : ∀ q, s.placedOrder = some q →
      (0 < bullwhipBaseline e s ∧ (q : ℚ) / bullwhipBaseline e s > 13 / 10) →
      s.bullwhipRisk = true ∧
        s.orderAmplification = some ((q : ℚ) / bullwhipBaseline e s)) :
    bullwhipStep e s = s := by
  unfold bullwhipStep
  cases ho : s.placedOrder with
  | none => rfl
  | some q =>
    dsimp only
    split_ifs with hc
    · obtain ⟨h1, h2⟩ := h q ho hc
      rw [← h2, ← h1, ← ho]
    · rfl

lemma costStep_fix {s : ActorState}
    (h : s.inventoryProcessed ∨ e.hasPastProcessed →
      s.totalCost = e.pastCost +
        (if s.inventoryProcessed then
          (s.stock : ℚ) * cf.holdingCost + (s.backlog : ℚ) * cf.backlogCost
        else 0)) :
    costStep cf e s = s := by
  unfold costStep
  split_ifs with hc hp
  · have hh := h hc
    rw [if_pos hp] at hh
    cases s
    dsimp only at hh ⊢
    rw [← hh]
  · have hh := h hc
    rw [if_neg hp] at hh
    cases s
    dsimp only at hh ⊢
    rw [← hh]
  · rfl

lemma smoothingStep_skip {s : ActorState}
    (h : ¬smoothingFires s.demandRate ((observedDemand e).getD s.demandRate)) :
    smoothingStep e s = s := by
  simp only [smoothingStep, if_neg h]

end FixLemmas

section LocalPreFacts

variable (cf : ActorStatic) (e : ActorEnv) (s : ActorState)

lemma coverageStep_calc_false {s : ActorState}
    (h : (coverageStep s).coverageCalculated = false) :
    s.coverageCalculated = false ∧ ¬s.demandRate > 0 := by
  by_cases hc : ¬s.coverageCalculated ∧ s.demandRate > 0
  · exfalso
    simp only [coverageStep, if_pos hc] at h
    exact absurd h (by simp)
  · have hcc : (coverageStep s).coverageCalculated = s.coverageCalculated := by
      simp only [coverageStep, if_neg hc]
    rw [hcc] at h
    refine ⟨h, ?_⟩
    rcases not_and_or.mp hc with h1 | h1
    · exact absurd (by simpa using h1) (by simp [h])
    · exact h1

lemma localPre_inventoryProcessed : (localPre cf e s).inventoryProcessed = true := by
  unfold localPre
  simp

lemma localPre_orderPolicyCalculated : (localPre cf e s).orderPolicyCalculated = true := by
  unfold localPre
  simp

lemma localPre_demandRate : (localPre cf e s).demandRate = (smoothingStep e s).demandRate := by
  unfold localPre
  simp

lemma localPre_rate_of_not_calc (h : (localPre cf e s).coverageCalculated = false) :
    ¬(localPre cf e s).demandRate > 0 := by
  unfold localPre at h ⊢
  simp only [createOrdersStep_coverageCalculated, policyStep_coverageCalculated,
    stockoutStep_coverageCalculated] at h
  simp only [createOrdersStep_demandRate, policyStep_demandRate, stockoutStep_demandRate,
    coverageStep_demandRate]
  exact (coverageStep_calc_false h).2

lemma localPre_stockout
    (h : (localPre cf e s).coverage < ((cf.leadTime + cf.orderDelay : Int) : ℚ)) :
    (localPre cf e s).stockoutRisk = true := by
  unfold localPre at h ⊢
  simp only [createOrdersStep_coverage, policyStep_coverage, stockoutStep_coverage] at h
  simp only [createOrdersStep_stockoutRisk, policyStep_stockoutRisk, stockoutStep_stockoutRisk]
  rw [if_pos h]

lemma localPre_placed (h : (localPre cf e s).suggestedOrder > 0 ∧ cf.hasUpstream) :
    (localPre cf e s).placedOrder ≠ none := by
  unfold localPre at h ⊢
  simp only [createOrdersStep_suggestedOrder] at h
  exact createOrdersStep_placedOrder_isSome _ _ ⟨h.1, h.2⟩

lemma localPre_fix {t : ActorState}
    (hsm : smoothingStep e t = t)
    (hp : t.inventoryProcessed = true)
    (hcv : t.coverageCalculated = true ∨ ¬t.demandRate > 0)
    (hso : t.coverage < ((cf.leadTime + cf.orderDelay : Int) : ℚ) → t.stockoutRisk = true)
    (hpo : t.orderPolicyCalculated = true)
    (hor : t.suggestedOrder > 0 ∧ cf.hasUpstream → t.placedOrder ≠ none) :
    localPre cf e t = t := by
  unfold localPre
  rw [hsm, inventoryStep_skip e hp, coverageStep_skip hcv, stockoutStep_fix cf hso,
    policyStep_skip cf hpo, createOrdersStep_skip cf hor]

lemma bullwhipBaseline_eq_of_rate (e : ActorEnv) {a b : ActorState}
    (h : a.demandRate = b.demandRate) : bullwhipBaseline e a = bullwhipBaseline e b := by
  unfold bullwhipBaseline
  cases e.customerDemand <;> simp [h]

end LocalPreFacts

section WeekStepFacts

/-- Shorthand for rules 1-6 applied to every repository. -/
def preMap (w : WeekConfig) (g : GState) : GState :=
  GState.map (fun a s => localPre (w.cfg a) (w.env a) s) g

lemma weekStep_eq_pre_post (w : WeekConfig) (g : GState) :
    weekStep w g =
      GState.map (fun r s => costStep (w.cfg r) (w.env r) (bullwhipStep (w.env r)
        (shipmentWrite (incomingOrder (preMap w g) r) s))) (preMap w g) := by
  rw [weekStep_eq]
  rfl

lemma weekStep_get (w : WeekConfig) (g : GState) (r : Role) :
    (weekStep w g).get r =
      costStep (w.cfg r) (w.env r) (bullwhipStep (w.env r)
        (shipmentWrite (incomingOrder (preMap w g) r) ((preMap w g).get r))) := by
  rw [weekStep_eq_pre_post, GState.map_get]

lemma preMap_get (w : WeekConfig) (g : GState) (r : Role) :
    (preMap w g).get r = localPre (w.cfg r) (w.env r) (g.get r) := by
  rw [preMap, GState.map_get]

end WeekStepFacts

lemma weekStep_processed (w : WeekConfig) (g : GState) (r : Role) :
    ((weekStep w g).get r).inventoryProcessed = true := by
  rw [weekStep_get]
  simp only [costStep_inventoryProcessed, bullwhipStep_inventoryProcessed,
    shipmentWrite_inventoryProcessed, preMap_get, localPre_inventoryProcessed]

lemma weekStep_policyCalc (w : WeekConfig) (g : GState) (r : Role) :
    ((weekStep w g).get r).orderPolicyCalculated = true := by
  rw [weekStep_get]
  simp only [costStep_orderPolicyCalculated, bullwhipStep_orderPolicyCalculated,
    shipmentWrite_orderPolicyCalculated, preMap_get, localPre_orderPolicyCalculated]

lemma weekStep_rate_of_not_calc (w : WeekConfig) (g : GState) (r : Role)
    (h : ((weekStep w g).get r).coverageCalculated = false) :
    ¬((weekStep w g).get r).demandRate > 0 := by
  rw [weekStep_get] at h ⊢
  simp only [costStep_coverageCalculated, bullwhipStep_coverageCalculated,
    shipmentWrite_coverageCalculated, preMap_get] at h
  simp only [costStep_demandRate, bullwhipStep_demandRate, shipmentWrite_demandRate, preMap_get]
  exact localPre_rate_of_not_calc _ _ _ h

lemma weekStep_stockout (w : WeekConfig) (g : GState) (r : Role)
    (h : ((weekStep w g).get r).coverage <
      (((w.cfg r).leadTime + (w.cfg r).orderDelay : Int) : ℚ)) :
    ((weekStep w g).get r).stockoutRisk = true := by
  rw [weekStep_get] at h ⊢
  simp only [costStep_coverage, bullwhipStep_coverage, shipmentWrite_coverage, preMap_get] at h
  simp only [costStep_stockoutRisk, bullwhipStep_stockoutRisk, shipmentWrite_stockoutRisk,
    preMap_get]
  exact localPre_stockout _ _ _ h

lemma weekStep_placedOrder (w : WeekConfig) (g : GState) (r : Role) :
    ((weekStep w g).get r).placedOrder = ((preMap w g).get r).placedOrder := by
  rw [weekStep_get]
  simp only [costStep_placedOrder, bullwhipStep_placedOrder, shipmentWrite_placedOrder]

lemma weekStep_placed (w : WeekConfig) (g : GState) (r : Role)
    (h : ((weekStep w g).get r).suggestedOrder > 0 ∧ (w.cfg r).hasUpstream) :
    ((weekStep w g).get r).placedOrder ≠ none := by
  rw [weekStep_get] at h ⊢
  simp only [costStep_suggestedOrder, bullwhipStep_suggestedOrder, shipmentWrite_suggestedOrder,
    preMap_get] at h
  simp only [costStep_placedOrder, bullwhipStep_placedOrder, shipmentWrite_placedOrder,
    preMap_get]
  exact localPre_placed _ _ _ h

lemma weekStep_shipment (w : WeekConfig) (g : GState) (r : Role) (q : Int)
    (h : incomingOrder (preMap w g) r = some q) :
    ((weekStep w g).get r).shipment = some q := by
  rw [weekStep_get]
  simp only [costStep_shipment, bullwhipStep_shipment]
  exact shipmentWrite_shipment_of_some _ _ q h

lemma weekStep_bullwhip_consistent (w : WeekConfig) (g : GState) (r : Role) :
    ∀ q, ((weekStep w g).get r).placedOrder = some q →
      (0 < bullwhipBaseline (w.env r) ((weekStep w g).get r) ∧
        (q : ℚ) / bullwhipBaseline (w.env r) ((weekStep w g).get r) > 13 / 10) →
      ((weekStep w g).get r).bullwhipRisk = true ∧
        ((weekStep w g).get r).orderAmplification =
          some ((q : ℚ) / bullwhipBaseline (w.env r) ((weekStep w g).get r)) := by
  intro q hq hc
  rw [weekStep_get] at hq hc ⊢
  have hrate : (costStep (w.cfg r) (w.env r) (bullwhipStep (w.env r)
      (shipmentWrite (incomingOrder (preMap w g) r) ((preMap w g).get r)))).demandRate =
      (shipmentWrite (incomingOrder (preMap w g) r) ((preMap w g).get r)).demandRate := by
    simp only [costStep_demandRate, bullwhipStep_demandRate]
  have hbase := bullwhipBaseline_eq_of_rate (w.env r) hrate
  rw [hbase] at hc
  simp only [costStep_placedOrder, bullwhipStep_placedOrder, shipmentWrite_placedOrder] at hq
  have hq' : (shipmentWrite (incomingOrder (preMap w g) r)
      ((preMap w g).get r)).placedOrder = some q := by
    simp only [shipmentWrite_placedOrder]
    exact hq
  have hset := bullwhipStep_set (w.env r) _ q hq' hc
  constructor
  · simp only [costStep_bullwhipRisk]
    exact hset.1
  · rw [hbase]
    simp only [costStep_orderAmplification]
    exact hset.2

lemma weekStep_cost_consistent (w : WeekConfig) (g : GState) (r : Role) :
    ((weekStep w g).get r).inventoryProcessed ∨ (w.env r).hasPastProcessed →
      ((weekStep w g).get r).totalCost = (w.env r).pastCost +
        (if ((weekStep w g).get r).inventoryProcessed then
          (((weekStep w g).get r).stock : ℚ) * (w.cfg r).holdingCost +
            (((weekStep w g).get r).backlog : ℚ) * (w.cfg r).backlogCost
        else 0) := by
  intro _
  rw [weekStep_get]
  have hbp : (bullwhipStep (w.env r) (shipmentWrite (incomingOrder (preMap w g) r)
      ((preMap w g).get r))).inventoryProcessed = true := by
    simp only [bullwhipStep_inventoryProcessed, shipmentWrite_inventoryProcessed,
      preMap_get, localPre_inventoryProcessed]
  rw [costStep_totalCost_of_processed _ _ _ hbp]
  have hvp : (costStep (w.cfg r) (w.env r) (bullwhipStep (w.env r)
      (shipmentWrite (incomingOrder (preMap w g) r)
        ((preMap w g).get r)))).inventoryProcessed = true := by
    simp only [costStep_inventoryProcessed]
    exact hbp
  rw [hvp]
  simp only [if_true, costStep_stock, costStep_backlog]

lemma ratAbs_eq_abs (q : ℚ) : ratAbs q = |q| := by
  unfold ratAbs
  split_ifs with h
  · exact (abs_of_neg h).symm
  · exact (abs_of_nonneg (not_lt.mp h)).symm

lemma pyInt_intCast (k : Int) : pyInt (k : ℚ) = k := by
  unfold pyInt
  split_ifs with h
  · exact Int.floor_intCast k
  · exact Int.ceil_intCast k

lemma countFoldl_eq (l : List Bool) : ∀ a b : Nat,
    l.foldl (fun acc res => if res then (acc.1 + 1, acc.2) else (acc.1, acc.2 + 1)) (a, b) =
      (a + l.count true, b + l.count false) := by
  induction l with
  | nil => intro a b; simp
  | cons x xs ih =>
    intro a b
    rw [List.foldl_cons]
    cases x
    · simp only [Bool.false_eq_true, if_false]
      rw [ih]
      simp only [List.count_cons, Prod.mk.injEq]
      constructor <;> simp <;> omega
    · simp only [if_true]
      rw [ih]
      simp only [List.count_cons, Prod.mk.injEq]
      constructor <;> simp <;> omega

/-- Static configuration and week-3 inputs of the spike scenario: the demand
pattern injects customer demand 12 at week 3; every actor has shipping
delay 2 and order delay 1, holding cost 0.5 and backlog cost 1.0; the
non-Retailer actors observed average orders of 4 in week 2. -/
def spikeW : WeekConfig :=
  ⟨fun r => ⟨2, 1, 1 / 2, 1, decide (r ≠ .factory)⟩,
   fun r => match r with
    | .retailer => ⟨some 12, none, 4, [], 12, 0, 12, true⟩
    | _ => ⟨none, some 4, 4, [], 12, 0, 12, true⟩⟩

/-- A fully processed week-3 state of the spike scenario: all idempotency
flags are set, week-3 orders exist for every actor with an upstream, and
week-3 shipments exist for every actor that received an order. -/
def spikeG : GState :=
  ⟨⟨32 / 5, 4, 0, true, 5 / 8, true, 16, true, true, true, some (4 / 3), some 16, none, 14⟩,
   ⟨4, 16, 0, true, 4, true, 0, true, false, false, none, some 4, some 16, 20⟩,
   ⟨4, 16, 0, true, 4, true, 0, true, false, false, none, some 4, some 4, 20⟩,
   ⟨4, 16, 0, true, 4, true, 0, true, false, false, none, none, some 4, 20⟩⟩

/-- Week inputs of the stable scenario: customer demand 4 every week. -/
def stableW : WeekConfig :=
  ⟨fun r => ⟨2, 1, 1 / 2, 1, decide (r ≠ .factory)⟩,
   fun r => match r with
    | .retailer => ⟨some 4, none, 4, [], 12, 0, 12, true⟩
    | _ => ⟨none, some 4, 4, [], 12, 0, 12, true⟩⟩

/-- A fully processed week state of the stable scenario. -/
def stableG : GState :=
  ⟨⟨4, 12, 0, true, 3, true, 0, true, false, false, none, some 4, none, 18⟩,
   ⟨4, 16, 0, true, 4, true, 0, true, false, false, none, some 4, some 4, 20⟩,
   ⟨4, 16, 0, true, 4, true, 0, true, false, false, none, some 4, some 4, 20⟩,
   ⟨4, 16, 0, true, 4, true, 0, true, false, false, none, none, some 4, 20⟩⟩

/-- Claim C3, amended: re-running the whole rule pipeline
(execute_week_rules) on a week state the pipeline has itself produced — so
all idempotency flags are set and the week's orders and shipments exist —
leaves the state exactly equal, PROVIDED the demand-rate smoothing step
leaves every actor's demandRate unchanged on the re-run (its 5 percent
threshold suppresses the write, or rewrites the same value). Without that
proviso the re-run is not a no-op: smoothing has no idempotency flag and
re-applies, as the counterexample shows. -/
theorem weekStep_idem (w : WeekConfig) (g : GState)
    (hsm : ∀ r, smoothingStep (w.env r) ((weekStep w g).get r) = (weekStep w g).get r) :
    weekStep w (weekStep w g) = weekStep w g := by
  have hpre : preMap w (weekStep w g) = weekStep w g := by
    apply GState.ext_get
    intro r
    rw [preMap_get]
    apply localPre_fix
    · exact hsm r
    · exact weekStep_processed w g r
    · cases hc : ((weekStep w g).get r).coverageCalculated
      · exact Or.inr (weekStep_rate_of_not_calc w g r hc)
      · exact Or.inl rfl
    · exact weekStep_stockout w g r
    · exact weekStep_policyCalc w g r
    · exact fun h => weekStep_placed w g r h
  rw [weekStep_eq_pre_post w (weekStep w g), hpre]
  apply GState.ext_get
  intro r
  rw [GState.map_get]
  have hinc : incomingOrder (weekStep w g) r = incomingOrder (preMap w g) r := by
    unfold incomingOrder
    cases downstream r
    · rfl
    · dsimp only
      rw [weekStep_placedOrder]
  rw [hinc]
  rw [shipmentWrite_fix (fun q hq => weekStep_shipment w g r q hq)]
  rw [bullwhipStep_fix _ (weekStep_bullwhip_consistent w g r)]
  rw [costStep_fix _ _ (weekStep_cost_consistent w g r)]

/-- Claim C3 witness: in the stable-demand scenario the smoothing threshold
suppresses every repeat write, and re-running the pipeline on the state it
produced is exactly a no-op. -/
theorem weekStep_idem_witness :
    weekStep stableW (weekStep stableW stableG) = weekStep stableW stableG := by
  apply weekStep_idem
  intro r
  cases r <;>
    norm_num [weekStep, GState.map, shipmentsStep, incomingOrder, GState.get, downstream,
      smoothingStep, smoothingFires, smoothedRate, ratAbs, observedDemand, inventoryStep,
      updateInventoryCore, demandThisWeek, coverageStep, stockoutStep, policyStep,
      createOrdersStep, bullwhipStep, bullwhipBaseline, costStep, shipmentWrite,
      stableW, stableG]

/-- Claim C3 counterexample: a fully processed spike-scenario week state
(all idempotency flags set, orders and shipments existing) on which
re-running the pipeline is NOT a no-op: the Retailer's demandRate moves
from 6.4 to 0.3 times 12 plus 0.7 times 6.4, which is 8.08. -/
theorem weekStep_not_idempotent_counterexample :
    (∀ r, (spikeG.get r).inventoryProcessed = true ∧
      (spikeG.get r).coverageCalculated = true ∧
      (spikeG.get r).orderPolicyCalculated = true) ∧
    (∀ r, r ≠ Role.factory → (spikeG.get r).placedOrder.isSome = true) ∧
    (∀ r, r ≠ Role.retailer → (spikeG.get r).shipment.isSome = true) ∧
    (weekStep spikeW spikeG).retailer.demandRate = 202 / 25 ∧
    spikeG.retailer.demandRate = 32 / 5 ∧
    weekStep spikeW spikeG ≠ spikeG := by
  refine ⟨?_, ?_, ?_, ?_, ?_, ?_⟩
  · intro r; cases r <;> exact ⟨rfl, rfl, rfl⟩
  · intro r h; cases r <;> simp_all [spikeG, GState.get]
  · intro r h; cases r <;> simp_all [spikeG, GState.get]
  · norm_num [weekStep, GState.map, shipmentsStep, incomingOrder, GState.get, downstream,
      smoothingStep, smoothingFires, smoothedRate, ratAbs, observedDemand, inventoryStep,
      updateInventoryCore, demandThisWeek, coverageStep, stockoutStep, policyStep,
      createOrdersStep, bullwhipStep, bullwhipBaseline, costStep, shipmentWrite,
      spikeW, spikeG]
  · norm_num [spikeG]
  · intro hEq
    have h1 : (weekStep spikeW spikeG).retailer.demandRate = 202 / 25 := by
      norm_num [weekStep, GState.map, shipmentsStep, incomingOrder, GState.get, downstream,
        smoothingStep, smoothingFires, smoothedRate, ratAbs, observedDemand, inventoryStep,
        updateInventoryCore, demandThisWeek, coverageStep, stockoutStep, policyStep,
        createOrdersStep, bullwhipStep, bullwhipBaseline, costStep, shipmentWrite,
        spikeW, spikeG]
    rw [hEq] at h1
    norm_num [spikeG] at h1

/-- Claim C1 counterexample: the stored ORDER-UP-TO quantity is not
ceil(max(demandRate * targetCoverage - currentStock + backlog, 0)) — the
SPARQL rule ignores the backlog — and AlgorithmicPlayer.decide does not
return the same quantity: with demandRate 4, leadTime 2, orderDelay 1,
stock 0 and backlog 5 the rule stores 12 while the spec formula (and
decide) give 17; with demandRate 4.5, stock 0, backlog 0 decide truncates
to 13 while the spec formula rounds up to 14. -/
theorem orderUpTo_spec_counterexample :
    orderUpToRuleOrder 4 2 1 0 = 12 ∧
    specOrderUpTo defaultTargetCoverage 4 0 5 = 17 ∧
    algorithmicDecide defaultTargetCoverage 4 0 5 = 17 ∧
    orderUpToRuleOrder 4 2 1 0 ≠ specOrderUpTo defaultTargetCoverage 4 0 5 ∧
    algorithmicDecide defaultTargetCoverage 4 0 5 ≠ orderUpToRuleOrder 4 2 1 0 ∧
    algorithmicDecide defaultTargetCoverage (9 / 2) 0 0 = 13 ∧
    specOrderUpTo defaultTargetCoverage (9 / 2) 0 0 = 14 := by
  refine ⟨?_, ?_, ?_, ?_, ?_, ?_, ?_⟩ <;>
    norm_num [orderUpToRuleOrder, specOrderUpTo, algorithmicDecide, defaultTargetCoverage,
      pyInt, Int.ceil_eq_iff]

/-- Claim C1, amended: the ORDER-UP-TO rule stores
ceil(max(demandRate * (leadTime + orderDelay) - currentStock, 0)), reading
the actor's delays and ignoring the backlog; AlgorithmicPlayer.decide
returns max(0, int(demandRate * targetCoverage - inventory + backlog))
with Python int truncation and targetCoverage defaulting to 3. The two
agree when the backlog is 0, targetCoverage equals leadTime + orderDelay,
and the target difference is a whole number. -/
theorem orderUpTo_amended (rate : ℚ) (leadTime orderDelay stock backlog : Int)
    (coverage : ℚ) (hcov : coverage = ((leadTime + orderDelay : Int) : ℚ))
    (hb : backlog = 0)
    (hint : ∃ k : Int, rate * coverage - (stock : ℚ) = (k : ℚ)) :
    orderUpToRuleOrder rate leadTime orderDelay stock =
      ⌈max (rate * ((leadTime + orderDelay : Int) : ℚ) - (stock : ℚ)) 0⌉ ∧
    orderUpToRuleOrder rate leadTime orderDelay stock =
      algorithmicDecide coverage rate stock backlog := by
  obtain ⟨k, hk⟩ := hint
  subst hb
  subst hcov
  constructor
  · simp only [orderUpToRuleOrder]
    by_cases hd : rate * ((leadTime + orderDelay : Int) : ℚ) - (stock : ℚ) > 0
    · rw [if_pos hd, max_eq_left hd.le]
    · rw [if_neg hd, max_eq_right (not_lt.mp hd)]
  · simp only [orderUpToRuleOrder, algorithmicDecide, Int.cast_zero, add_zero]
    rw [hk, pyInt_intCast]
    by_cases hp : (k : ℚ) > 0
    · rw [if_pos hp, Int.ceil_intCast]
      have hgt : 0 < k := by exact_mod_cast hp
      omega
    · rw [if_neg hp, Int.ceil_zero]
      have hle : k ≤ 0 := by exact_mod_cast not_lt.mp hp
      omega

/-- Claim C1 witness: with demandRate 4, leadTime 2, orderDelay 1,
stock 0 and backlog 0 the rule and the player agree (both order 12). -/
theorem orderUpTo_amended_witness :
    orderUpToRuleOrder 4 2 1 0 =
      ⌈max ((4 : ℚ) * (((2 : Int) + 1 : Int) : ℚ) - ((0 : Int) : ℚ)) 0⌉ ∧
    orderUpToRuleOrder 4 2 1 0 = algorithmicDecide 3 4 0 0 :=
  orderUpTo_amended 4 2 1 0 0 3 (by norm_num) rfl ⟨12, by norm_num⟩

/-- Claim C2: for an unprocessed week-N snapshot (N greater than 1), the
Inventory-Update rule sets newStock = max((oldStock + arrivals) - (demand +
oldBacklog), 0) and newBacklog = max((demand + oldBacklog) - (oldStock +
arrivals), 0), marks the snapshot processed, where arrivals is the
federated sum of shipment quantities addressed to the actor with
arrivalWeek = N and demand is the customer demand when present, else the
sum of received orders; consequently newStock - newBacklog = (oldStock +
arrivals) - (demand + oldBacklog) and at most one of the two is positive
(the inventory conservation law). -/
theorem inventory_update_conservation (store : List Shipment) (actor : Role) (week : Int)
    (e : ActorEnv) (s : ActorState) (hweek : 1 < week)
    (hp : s.inventoryProcessed = false)
    (ha : e.arrivals = arrivingShipmentsFederated store actor week) :
    (inventoryStep e s).stock =
      max ((e.prevStock + arrivingShipmentsFederated store actor week) -
        (demandThisWeek e.customerDemand e.ordersReceivedLocal + e.prevBacklog)) 0 ∧
    (inventoryStep e s).backlog =
      max ((demandThisWeek e.customerDemand e.ordersReceivedLocal + e.prevBacklog) -
        (e.prevStock + arrivingShipmentsFederated store actor week)) 0 ∧
    (inventoryStep e s).inventoryProcessed = true ∧
    (inventoryStep e s).stock - (inventoryStep e s).backlog =
      (e.prevStock + arrivingShipmentsFederated store actor week) -
        (demandThisWeek e.customerDemand e.ordersReceivedLocal + e.prevBacklog) ∧
    ((inventoryStep e s).stock = 0 ∨ (inventoryStep e s).backlog = 0) := by
  rw [← ha]
  simp only [inventoryStep, hp, Bool.false_eq_true, if_false, updateInventoryCore]
  refine ⟨?_, ?_, ?_, ?_, ?_⟩
  · dsimp only; split_ifs with h <;> omega
  · dsimp only; split_ifs with h <;> omega
  · trivial
  · dsimp only; split_ifs with h <;> omega
  · dsimp only; split_ifs with h <;> omega

/-- Claim C2 witness: with previous stock 12, backlog 4, one shipment of 7
arriving in week 3 among others that do not match, and customer demand 12,
the new snapshot is stock 3, backlog 0, processed. -/
theorem inventory_update_witness :
    (inventoryStep ⟨some 12, none, 7, [], 12, 4, 0, false⟩
      ⟨4, 12, 4, false, 0, false, 0, false, false, false, none, none, none, 0⟩).stock = 3 ∧
    (inventoryStep ⟨some 12, none, 7, [], 12, 4, 0, false⟩
      ⟨4, 12, 4, false, 0, false, 0, false, false, false, none, none, none, 0⟩).backlog = 0 ∧
    (inventoryStep ⟨some 12, none, 7, [], 12, 4, 0, false⟩
      ⟨4, 12, 4, false, 0, false, 0, false, false, false, none, none, none,
        0⟩).inventoryProcessed = true := by
  have h := inventory_update_conservation
    [⟨.wholesaler, .retailer, 1, 3, 7⟩, ⟨.distributor, .wholesaler, 1, 3, 5⟩,
     ⟨.wholesaler, .retailer, 2, 4, 9⟩] .retailer 3
    ⟨some 12, none, 7, [], 12, 4, 0, false⟩
    ⟨4, 12, 4, false, 0, false, 0, false, false, false, none, none, none, 0⟩
    (by norm_num) rfl rfl
  refine ⟨?_, ?_, h.2.2.1⟩
  · rw [h.1]; rfl
  · rw [h.2.1]; rfl

/-- Claim C4: when an observed demand exists, the Demand-Rate-Smoothing
rule replaces demandRate by 0.3 times observed plus 0.7 times old, and
applies the write exactly when the relative change exceeds 5 percent or
the old rate is 0. -/
theorem demand_rate_smoothing (e : ActorEnv) (s : ActorState) (obs : ℚ)
    (h : observedDemand e = some obs) :
    (smoothingStep e s).demandRate =
      if |(3 / 10 * obs + 7 / 10 * s.demandRate) - s.demandRate| / s.demandRate > 1 / 20 ∨
          s.demandRate = 0
      then 3 / 10 * obs + 7 / 10 * s.demandRate
      else s.demandRate := by
  have harg : smoothedRate s.demandRate obs = 3 / 10 * obs + 7 / 10 * s.demandRate := by
    unfold smoothedRate; ring
  unfold smoothingStep
  rw [h]
  simp only [Option.getD_some]
  by_cases h0 : s.demandRate = 0
  · have hf : smoothingFires s.demandRate obs := Or.inr h0
    have hr : (|(3 / 10 * obs + 7 / 10 * s.demandRate) - s.demandRate| / s.demandRate > 1 / 20 ∨
        s.demandRate = 0) := Or.inr h0
    rw [if_pos hf, if_pos hr]
    exact harg
  · have hcond : smoothingFires s.demandRate obs ↔
        (|(3 / 10 * obs + 7 / 10 * s.demandRate) - s.demandRate| / s.demandRate > 1 / 20 ∨
          s.demandRate = 0) := by
      unfold smoothingFires
      rw [ratAbs_eq_abs, harg]
      constructor
      · rintro (⟨-, hr⟩ | h0')
        · exact Or.inl hr
        · exact Or.inr h0'
      · rintro (hr | h0')
        · exact Or.inl ⟨h0, hr⟩
        · exact Or.inr h0'
    by_cases hf : smoothingFires s.demandRate obs
    · rw [if_pos hf, if_pos (hcond.mp hf)]
      exact harg
    · rw [if_neg hf, if_neg (fun hh => hf (hcond.mpr hh))]

/-- Claim C4 witness: under the spike pattern (customer demand 12 at week
3) with old demandRate 4.0, the Retailer's smoothed rate is
0.3 times 12 plus 0.7 times 4.0, which is 6.4. -/
theorem demand_rate_smoothing_witness :
    observedDemand ⟨some 12, none, 0, [], 0, 0, 0, false⟩ = some 12 ∧
    (smoothingStep ⟨some 12, none, 0, [], 0, 0, 0, false⟩
      ⟨4, 12, 0, false, 0, false, 0, false, false, false, none, none, none, 0⟩).demandRate =
      32 / 5 := by
  refine ⟨rfl, ?_⟩
  have h := demand_rate_smoothing ⟨some 12, none, 0, [], 0, 0, 0, false⟩
    ⟨4, 12, 0, false, 0, false, 0, false, false, false, none, none, none, 0⟩ 12 rfl
  rw [h]
  split_ifs with hcnd
  · norm_num
  · exfalso
    apply hcnd
    left
    rw [abs_of_nonneg (by norm_num)]
    norm_num

/-- Claim C5: for a metrics snapshot whose hasStockoutRisk is at its seeded
value false, running Stockout-Risk-Detection leaves the flag true exactly
when inventoryCoverage is strictly below leadTime + orderDelay. -/
theorem stockout_risk_iff (cf : ActorStatic) (s : ActorState)
    (h : s.stockoutRisk = false) :
    ((stockoutStep cf s).stockoutRisk = true ↔
      s.coverage < ((cf.leadTime + cf.orderDelay : Int) : ℚ)) := by
  rw [stockoutStep_stockoutRisk]
  constructor
  · intro ht
    by_contra hc
    rw [if_neg hc, h] at ht
    exact absurd ht (by simp)
  · intro hc
    rw [if_pos hc]

/-- Claim C5 witness: with leadTime 2 and orderDelay 1, coverage 2 sets the
risk and coverage exactly 3 leaves it false (strict inequality). -/
theorem stockout_risk_witness :
    (stockoutStep ⟨2, 1, 1 / 2, 1, true⟩
      ⟨4, 8, 0, true, 2, true, 0, false, false, false, none, none, none, 0⟩).stockoutRisk =
      true ∧
    ¬((stockoutStep ⟨2, 1, 1 / 2, 1, true⟩
      ⟨4, 12, 0, true, 3, true, 0, false, false, false, none, none, none, 0⟩).stockoutRisk =
      true) := by
  constructor
  · exact (stockout_risk_iff ⟨2, 1, 1 / 2, 1, true⟩
      ⟨4, 8, 0, true, 2, true, 0, false, false, false, none, none, none, 0⟩ rfl).mpr
      (by norm_num)
  · intro hh
    have := (stockout_risk_iff ⟨2, 1, 1 / 2, 1, true⟩
      ⟨4, 12, 0, true, 3, true, 0, false, false, false, none, none, none, 0⟩ rfl).mp hh
    norm_num at this

/-- Claim C6: for a week order of quantity q placed by an actor whose
bullwhip flag and amplification are at their seeded values, with a positive
baseline (actual customer demand when available, else the demandRate),
Bullwhip-Detection sets hasBullwhipRisk true and stores the ratio
q / baseline on the order exactly when the ratio strictly exceeds 1.3; at
exactly 1.3 the risk stays false. -/
theorem bullwhip_risk_iff (e : ActorEnv) (s : ActorState) (q : Int)
    (ho : s.placedOrder = some q) (hr : s.bullwhipRisk = false)
    (hb : 0 < bullwhipBaseline e s) :
    (((bullwhipStep e s).bullwhipRisk = true ∧
      (bullwhipStep e s).orderAmplification = some ((q : ℚ) / bullwhipBaseline e s)) ↔
      (q : ℚ) / bullwhipBaseline e s > 13 / 10) := by
  unfold bullwhipStep
  rw [ho]
  dsimp only
  split_ifs with hc
  · constructor
    · intro _
      exact hc.2
    · intro _
      exact ⟨rfl, rfl⟩
  · constructor
    · intro hh
      rw [hr] at hh
      exact absurd hh.1 (by simp)
    · intro hh
      exact absurd ⟨hb, hh⟩ hc

/-- Claim C6 witness: with baseline 10 and order quantity 13 the ratio is
exactly 1.3 and the risk stays false; with quantity 14 the ratio is 1.4 and
the risk fires with the ratio stored. -/
theorem bullwhip_risk_witness :
    ¬(((bullwhipStep ⟨none, none, 0, [], 0, 0, 0, false⟩
        ⟨10, 0, 0, true, 0, true, 0, true, false, false, none, some 13, none, 0⟩).bullwhipRisk =
        true ∧
      (bullwhipStep ⟨none, none, 0, [], 0, 0, 0, false⟩
        ⟨10, 0, 0, true, 0, true, 0, true, false, false, none, some 13,
          none, 0⟩).orderAmplification =
        some ((13 : ℚ) / bullwhipBaseline ⟨none, none, 0, [], 0, 0, 0, false⟩
          ⟨10, 0, 0, true, 0, true, 0, true, false, false, none, some 13, none, 0⟩))) ∧
    ((bullwhipStep ⟨none, none, 0, [], 0, 0, 0, false⟩
      ⟨10, 0, 0, true, 0, true, 0, true, false, false, none, some 14, none, 0⟩).bullwhipRisk =
      true ∧
    (bullwhipStep ⟨none, none, 0, [], 0, 0, 0, false⟩
      ⟨10, 0, 0, true, 0, true, 0, true, false, false, none, some 14,
        none, 0⟩).orderAmplification =
      some ((14 : ℚ) / bullwhipBaseline ⟨none, none, 0, [], 0, 0, 0, false⟩
        ⟨10, 0, 0, true, 0, true, 0, true, false, false, none, some 14, none, 0⟩)) := by
  constructor
  · intro hh
    have := (bullwhip_risk_iff ⟨none, none, 0, [], 0, 0, 0, false⟩
      ⟨10, 0, 0, true, 0, true, 0, true, false, false, none, some 13, none, 0⟩ 13 rfl rfl
      (by norm_num [bullwhipBaseline])).mp hh
    norm_num [bullwhipBaseline] at this
  · exact (bullwhip_risk_iff ⟨none, none, 0, [], 0, 0, 0, false⟩
      ⟨10, 0, 0, true, 0, true, 0, true, false, false, none, some 14, none, 0⟩ 14 rfl rfl
      (by norm_num [bullwhipBaseline])).mpr (by norm_num [bullwhipBaseline])

/-- Claim C7 counterexample: a response from which no ORDER quantity can be
parsed does fall back to quantity 0, but the failure is NOT recorded in the
decision log's reasoning: the logged reasoning is the same "No reasoning
provided" placeholder that a successful reason-less decision receives, so
the log cannot tell the failure apart from a normal decision (the parse
warning only goes to the console). -/
theorem policy_failure_counterexample :
    parseResponse "You should order twenty units." = (0, "No reasoning provided") ∧
    aiDecide (.ok "You should order twenty units.") = (0, "No reasoning provided") ∧
    aiDecide (.ok "ORDER: 7") = (7, "No reasoning provided") := by
  refine ⟨by decide, by decide, by decide⟩

/-- Claim C7, amended: on an API error or timeout the LLM call falls back
to a response that parses to quantity 0 with the failure named in the
recorded reasoning; a response with no parsable ORDER also falls back to
quantity 0 (though only a console warning records that failure); every
decision is non-negative; and the orchestrator's player-turn loop never
crashes: it yields a decision for every role, recording 0 for a role whose
turn raised an exception. -/
theorem policy_failure_amended :
    (∀ err : String, aiDecide (.error err) =
      (0, "API error occurred, defaulting to no order for safety.")) ∧
    (∀ resp : String,
      (parseLines (splitNewlines (pyStrip resp.data) []) none []).1 = none →
      (aiDecide (.ok resp)).1 = 0) ∧
    (∀ api : Except String String, 0 ≤ (aiDecide api).1) ∧
    (∀ turn : Role → Except String Int,
      (executePlayerTurns turn).length = roleOrder.length ∧
      ∀ r err, turn r = .error err → (r, 0) ∈ executePlayerTurns turn) := by
  refine ⟨fun err => rfl, ?_, ?_, ?_⟩
  · intro resp h
    unfold aiDecide parseResponse gpt4CallLLM
    dsimp only
    rw [h]
    rfl
  · intro api
    unfold aiDecide
    dsimp only
    exact le_max_left 0 _
  · intro turn
    constructor
    · simp [executePlayerTurns]
    · intro r err h
      unfold executePlayerTurns
      rw [List.mem_map]
      refine ⟨r, ?_, by rw [h]⟩
      cases r <;> simp [roleOrder]

/-- Claim C7 witness: an LLM timeout yields order 0 with the failure in the
reasoning; a digit-free response yields order 0; a wholesaler whose turn
raises an exception is recorded with decision 0 while the loop covers all
four roles. -/
theorem policy_failure_witness :
    aiDecide (.error "Request timed out") =
      (0, "API error occurred, defaulting to no order for safety.") ∧
    (aiDecide (.ok "no digits here")).1 = 0 ∧
    (Role.wholesaler, 0) ∈ executePlayerTurns
      (fun r => if r = .wholesaler then .error "boom" else .ok 4) := by
  refine ⟨policy_failure_amended.1 "Request timed out", ?_, ?_⟩
  · exact policy_failure_amended.2.1 "no digits here" (by decide)
  · exact (policy_failure_amended.2.2.2
      (fun r => if r = .wholesaler then .error "boom" else .ok 4)).2
      Role.wholesaler "boom" rfl

/-- Claim C8 counterexample: execute_rule never retries — with a store that
times out on the first attempt and would succeed on any later one, it makes
exactly one call and reports failure, while an executor that followed the
spec and retried even once (or three times) would succeed — and a
transiently-failed federated rule application is never marked failed: with
four repositories, all-successful counted steps, and the UPDATE INVENTORY
application for one repository timing out (a false among the discarded
inventory results), execute_week_rules reports the very same counts
(36 executed, 0 failed) as when nothing failed at all. -/
theorem execute_rule_no_retry_counterexample :
    (executeRule (fun n => if n = 0 then .timeout else .ok204)).1 = false ∧
    (executeRule (fun n => if n = 0 then .timeout else .ok204)).2 = 1 ∧
    specRetryExecute (fun n => if n = 0 then .timeout else .ok204) 1 = true ∧
    specRetryExecute (fun n => if n = 0 then .timeout else .ok204) 3 = true ∧
    executeWeekRuleCounts 4 [true, true, true, true] [false, true, true, true]
      (List.replicate 16 true) (List.replicate 8 true) = (36, 0) ∧
    executeWeekRuleCounts 4 [true, true, true, true] [true, true, true, true]
      (List.replicate 16 true) (List.replicate 8 true) = (36, 0) := by
  refine ⟨by decide, rfl, by decide, by decide, by decide, by decide⟩

/-- Claim C8, amended: execute_rule performs exactly one store call per
rule application and any response other than HTTP 204 — including a
network timeout — marks that application failed immediately, with no
retry; execute_week_rules then continues with the remaining rules and
repositories, but only the per-repository loops of steps 3-6 and 8-9
record failures: their executed count is 3 times the repository count plus
the successful counted applications, their failed count is exactly the
number of failed counted applications, and the counts do not depend on the
discarded results of the federated smoothing and inventory steps (nor on
any step-7 outcome), whose applications are tallied as executed
unconditionally. -/
theorem execute_rule_amended :
    (∀ oracle : Nat → StoreResponse, (executeRule oracle).2 = 1) ∧
    (∀ oracle : Nat → StoreResponse, oracle 0 ≠ .ok204 → (executeRule oracle).1 = false) ∧
    (∀ (nRepos : Nat)
        (smoothingResults inventoryResults preShipmentResults postShipmentResults : List Bool),
      executeWeekRuleCounts nRepos smoothingResults inventoryResults
          preShipmentResults postShipmentResults =
        (3 * nRepos + preShipmentResults.count true + postShipmentResults.count true,
         preShipmentResults.count false + postShipmentResults.count false)) ∧
    (∀ (nRepos : Nat)
        (smoothingResults smoothingResults' inventoryResults inventoryResults'
          preShipmentResults postShipmentResults : List Bool),
      executeWeekRuleCounts nRepos smoothingResults inventoryResults
          preShipmentResults postShipmentResults =
        executeWeekRuleCounts nRepos smoothingResults' inventoryResults'
          preShipmentResults postShipmentResults) := by
  have hcounts : ∀ (nRepos : Nat)
      (smoothingResults inventoryResults preShipmentResults postShipmentResults : List Bool),
      executeWeekRuleCounts nRepos smoothingResults inventoryResults
          preShipmentResults postShipmentResults =
        (3 * nRepos + preShipmentResults.count true + postShipmentResults.count true,
         preShipmentResults.count false + postShipmentResults.count false) := by
    intro nRepos smoothingResults inventoryResults preShipmentResults postShipmentResults
    unfold executeWeekRuleCounts
    dsimp only
    rw [countFoldl_eq, countFoldl_eq]
    simp only [Prod.mk.injEq]
    constructor <;> simp <;> omega
  refine ⟨fun _ => rfl, ?_, hcounts, ?_⟩
  · intro oracle h
    unfold executeRule executeRuleResult
    dsimp only
    cases ho : oracle 0 <;> simp_all
  · intro nRepos sm sm' inv inv' pre post
    rw [hcounts nRepos sm inv pre post, hcounts nRepos sm' inv' pre post]

/-- Claim C8 witness: a store that always times out yields one call and a
failure; with four repositories, a failure among the counted coverage-step
applications lands in the failed tally (19 executed, 1 failed), while a
simultaneous failure among the discarded inventory-step applications does
not change either count. -/
theorem execute_rule_witness :
    (executeRule (fun _ => .timeout)).2 = 1 ∧
    (executeRule (fun _ => .timeout)).1 = false ∧
    executeWeekRuleCounts 4 [true, true, true, true] [false, true, true, true]
      [false, true, true, true] [true, true, true, true] = (19, 1) ∧
    executeWeekRuleCounts 4 [true, true, true, true] [true, true, true, true]
      [false, true, true, true] [true, true, true, true] =
      executeWeekRuleCounts 4 [false, false, false, false] [false, false, false, false]
        [false, true, true, true] [true, true, true, true] := by
  refine ⟨execute_rule_amended.1 _, execute_rule_amended.2.1 _ (by decide), ?_, ?_⟩
  · have h := execute_rule_amended.2.2.1 4 [true, true, true, true] [false, true, true, true]
      [false, true, true, true] [true, true, true, true]
    rw [h]
    decide
  · exact execute_rule_amended.2.2.2 4 [true, true, true, true] [false, false, false, false]
      [true, true, true, true] [false, false, false, false]
      [false, true, true, true] [true, true, true, true]

/-- Claim C9: every order written through Player.play_turn has a strictly
positive quantity — the decision is clamped to max(0, int(decision)) and
create_order skips quantity 0 — and the Factory, having no upstream
receiver, never writes an order. -/
theorem play_turn_order_invariant (role : Role) (week decision : Int) (o : OrderRec)
    (h : playTurnOrder role week decision = some o) :
    0 < o.quantity ∧ o.quantity = max 0 decision ∧ o.placedBy = role ∧
      role ≠ Role.factory := by
  unfold playTurnOrder createOrder at h
  cases hrm : receiverMap role with
  | none =>
    rw [hrm] at h
    exact absurd h (by simp)
  | some receiver =>
    rw [hrm] at h
    dsimp only at h
    split_ifs at h with hq
    injection h with h'
    subst h'
    refine ⟨?_, rfl, rfl, ?_⟩
    · show (0 : Int) < max 0 decision
      rcases le_or_lt decision 0 with hd | hd
      · rw [max_eq_left hd] at hq
        exact absurd rfl hq
      · rw [max_eq_right hd.le]
        exact hd
    · intro hf
      subst hf
      simp [receiverMap] at hrm

/-- Claim C9 witness: a Retailer decision of 5 writes the order of quantity
5 to the Wholesaler, and the invariant holds at it. -/
theorem play_turn_order_witness :
    0 < (⟨Role.retailer, Role.wholesaler, 5⟩ : OrderRec).quantity ∧
    (⟨Role.retailer, Role.wholesaler, 5⟩ : OrderRec).quantity = max 0 5 ∧
    (⟨Role.retailer, Role.wholesaler, 5⟩ : OrderRec).placedBy = Role.retailer ∧
    Role.retailer ≠ Role.factory :=
  play_turn_order_invariant Role.retailer 3 5 ⟨Role.retailer, Role.wholesaler, 5⟩ rfl

/-- Claim C10: a true hasStockoutRisk or hasBullwhipRisk flag is never
reset by a rule run: the detection rules delete the old value only in runs
that insert true again, so each of the two detection rules preserves a true
flag, and so does a whole pipeline run. -/
theorem risk_flags_monotone (w : WeekConfig) (g : GState) (r : Role)
    (cf : ActorStatic) (e : ActorEnv) (s : ActorState) :
    (s.stockoutRisk = true → (stockoutStep cf s).stockoutRisk = true) ∧
    (s.bullwhipRisk = true → (bullwhipStep e s).bullwhipRisk = true) ∧
    ((g.get r).stockoutRisk = true → ((weekStep w g).get r).stockoutRisk = true) ∧
    ((g.get r).bullwhipRisk = true → ((weekStep w g).get r).bullwhipRisk = true) := by
  refine ⟨?_, ?_, ?_, ?_⟩
  · intro h
    rw [stockoutStep_stockoutRisk]
    split_ifs with hc
    · rfl
    · exact h
  · exact fun h => bullwhipStep_bullwhipRisk_of_true e s h
  · intro h
    rw [weekStep_get]
    simp only [costStep_stockoutRisk, bullwhipStep_stockoutRisk, shipmentWrite_stockoutRisk,
      preMap_get]
    unfold localPre
    simp only [createOrdersStep_stockoutRisk, policyStep_stockoutRisk]
    rw [stockoutStep_stockoutRisk]
    split_ifs with hc
    · rfl
    · simp only [coverageStep_stockoutRisk, inventoryStep_stockoutRisk,
        smoothingStep_stockoutRisk]
      exact h
  · intro h
    rw [weekStep_get]
    simp only [costStep_bullwhipRisk]
    apply bullwhipStep_bullwhipRisk_of_true
    simp only [shipmentWrite_bullwhipRisk, preMap_get]
    unfold localPre
    simp only [createOrdersStep_bullwhipRisk, policyStep_bullwhipRisk,
      stockoutStep_bullwhipRisk, coverageStep_bullwhipRisk, inventoryStep_bullwhipRisk,
      smoothingStep_bullwhipRisk]
    exact h

/-- Claim C10 witness: in the processed spike-scenario state the Retailer's
risk flags are both true, and they stay true across a whole re-run of the
pipeline. -/
theorem risk_flags_monotone_witness :
    ((weekStep spikeW spikeG).get .retailer).stockoutRisk = true ∧
    ((weekStep spikeW spikeG).get .retailer).bullwhipRisk = true :=
  ⟨(risk_flags_monotone spikeW spikeG .retailer ⟨2, 1, 1 / 2, 1, true⟩
      ⟨none, none, 0, [], 0, 0, 0, false⟩
      ⟨4, 0, 0, true, 0, true, 0, true, false, false, none, none, none, 0⟩).2.2.1 rfl,
   (risk_flags_monotone spikeW spikeG .retailer ⟨2, 1, 1 / 2, 1, true⟩
      ⟨none, none, 0, [], 0, 0, 0, false⟩
      ⟨4, 0, 0, true, 0, true, 0, true, false, false, none, none, none, 0⟩).2.2.2 rfl⟩

end BeerGame
